import Mathlib

/-!
Verification development for the `comfy_frontend` job-queue repository.

The definitions below are a shallow embedding of the Python sources:
`src/db.py` (the SQLite queue store `QueueDB`), `src/prompt_builder.py`
(parameter coercion and prompt materialization) and `src/worker.py`
(the move-processed post-action).  SQL tables become Lean lists of
records, SQL `UPDATE ... WHERE` becomes `List.map` guarded by the row
predicate, `SELECT ... ORDER BY ... LIMIT 1` becomes `List.argmin`
over the order key, and ISO-8601 UTC timestamp strings (whose
lexicographic order is chronological) are modelled as naturals.
Python's dynamically typed scalar values are modelled by `PyVal`, with
floats as exact rationals.  Fallible Python code (raises) returns
`Except String`.
-/

/-- Prompt and job status tokens; exactly the five literals the code writes. -/
inductive PStatus where
  | pending
  | running
  | succeeded
  | failed
  | canceled
deriving DecidableEq, Repr

/-- Row of the `jobs` table (the columns the verified operations touch). -/
structure Job where
  id : Nat
  status : PStatus
  cancel_requested : Bool
  priority : Int
  created_at : Nat
  started_at : Option Nat
  finished_at : Option Nat
  last_error : Option String
  input_dir : String
  move_processed : Bool
deriving DecidableEq, Repr

/-- Row of the `prompts` table. -/
structure Prompt where
  id : Nat
  job_id : Nat
  input_file : String
  status : PStatus
  prompt_id : Option String
  started_at : Option Nat
  finished_at : Option Nat
  exit_status : Option String
  error_detail : Option String
  output_paths : String
  seed_used : Option Int
deriving DecidableEq, Repr

/-- The durable queue store state: `jobs`, `prompts` and the
single-row `queue_state.paused` flag. -/
structure DBState where
  jobs : List Job
  prompts : List Prompt
  paused : Bool
deriving DecidableEq, Repr

/-- Lookup of a job row by primary key (`SELECT ... FROM jobs WHERE id=?`).
`id` is the primary key, so the first match is the row. -/
def jobOf (s : DBState) (jid : Nat) : Option Job :=
  s.jobs.find? (fun j => j.id == jid)

/-- Statuses of the child prompts of a job, in row order
(`SELECT status FROM prompts WHERE job_id=?`). -/
def childStatuses (s : DBState) (jid : Nat) : List PStatus :=
  (s.prompts.filter (fun p => p.job_id == jid)).map (fun p => p.status)

/-- Result of `QueueDB._job_prompt_counts`: per-status counts over the
children of one job, with the five known statuses defaulted to 0. -/
structure Counts where
  pending : Nat
  running : Nat
  succeeded : Nat
  failed : Nat
  canceled : Nat
deriving DecidableEq, Repr

/-- Embedding of `QueueDB._job_prompt_counts` (src/db.py:198): the SQL
`GROUP BY status` count for each status of the job's children. -/
def job_prompt_counts (s : DBState) (jid : Nat) : Counts :=
  let cs := childStatuses s jid
  { pending := cs.count .pending
    running := cs.count .running
    succeeded := cs.count .succeeded
    failed := cs.count .failed
    canceled := cs.count .canceled }

/-- The `total = sum(counts.values())` computed by `update_job_status`. -/
def Counts.total (c : Counts) : Nat :=
  c.pending + c.running + c.succeeded + c.failed + c.canceled

/-- The if/elif chain of `QueueDB.update_job_status` (src/db.py:222-237),
verbatim from the source, over the counts record. -/
def derive_status (c : Counts) (cancel_requested : Bool) : PStatus :=
  if c.total = 0 then .pending
  else if c.running > 0 then .running
  else if c.pending > 0 then .pending
  else if c.failed > 0 then .failed
  else if c.succeeded = c.total then .succeeded
  else if c.canceled = c.total then .canceled
  else if c.succeeded > 0 ∧ c.canceled > 0 ∧ cancel_requested then .canceled
  else .succeeded

/-- The spec §3.4 rule chain, written from the specification's words over
the multiset of child statuses: total==0 gives pending; else any running
gives running; else any pending gives pending; else any failed gives
failed; else all succeeded gives succeeded; else all canceled gives
canceled; else a mix of succeeded and canceled with `cancel_requested`
gives canceled; otherwise succeeded. -/
def specJobStatus (cs : List PStatus) (cancel_requested : Bool) : PStatus :=
  if cs.length = 0 then .pending
  else if .running ∈ cs then .running
  else if .pending ∈ cs then .pending
  else if .failed ∈ cs then .failed
  else if ∀ x ∈ cs, x = .succeeded then .succeeded
  else if ∀ x ∈ cs, x = .canceled then .canceled
  else if .succeeded ∈ cs ∧ .canceled ∈ cs ∧ cancel_requested then .canceled
  else .succeeded

/-- The `started_val` expression of `update_job_status` (src/db.py:240):
keep an existing `started_at`, else stamp `now` when the new status is
non-pending. -/
def started_val (j : Job) (status : PStatus) (now : Nat) : Option Nat :=
  match j.started_at with
  | some t => some t
  | none =>
    if status = .running ∨ status = .succeeded ∨ status = .failed ∨ status = .canceled
    then some now else none

/-- The `finished_val` expression of `update_job_status` (src/db.py:241). -/
def finished_val (status : PStatus) (now : Nat) : Option Nat :=
  if status = .succeeded ∨ status = .failed ∨ status = .canceled then some now else none

/-- One row's effect of the SQL `UPDATE jobs SET status=?,
started_at=COALESCE(started_at, ?), finished_at=? WHERE id=?`
(src/db.py:243-246): `COALESCE` keeps an existing `started_at`. -/
def update_row (status : PStatus) (startedVal finishedVal : Option Nat) (jb : Job) : Job :=
  { jb with
    status := status
    started_at := match jb.started_at with | some t => some t | none => startedVal
    finished_at := finishedVal }

/-- Embedding of `QueueDB.update_job_status` (src/db.py:210-248).
`now` stands for the `utc_now()` call.  Returns the updated state and
the computed status; a missing job returns `pending` without a write. -/
def update_job_status (s : DBState) (now : Nat) (jid : Nat) : DBState × PStatus :=
  match jobOf s jid with
  | none => (s, .pending)
  | some j =>
    let status := derive_status (job_prompt_counts s jid) j.cancel_requested
    ({ s with
        jobs := s.jobs.map (fun jb =>
          if jb.id == jid then
            update_row status (started_val j status now) (finished_val status now) jb
          else jb) },
     status)

theorem total_counts_eq_length (cs : List PStatus) :
    (Counts.total
      { pending := cs.count .pending
        running := cs.count .running
        succeeded := cs.count .succeeded
        failed := cs.count .failed
        canceled := cs.count .canceled }) = cs.length := by
  induction cs with
  | nil => rfl
  | cons x xs ih =>
    cases x <;>
      simp [Counts.total, List.count_cons] at ih ⊢ <;> omega

theorem derive_status_eq_spec (cs : List PStatus) (cr : Bool) :
    derive_status
      { pending := cs.count .pending
        running := cs.count .running
        succeeded := cs.count .succeeded
        failed := cs.count .failed
        canceled := cs.count .canceled } cr = specJobStatus cs cr := by
  have htot := total_counts_eq_length cs
  have hallS : (cs.count PStatus.succeeded = cs.length) ↔ ∀ x ∈ cs, x = PStatus.succeeded :=
    ⟨fun h x hx => (List.count_eq_length.mp h x hx).symm,
     fun h => List.count_eq_length.mpr fun b hb => (h b hb).symm⟩
  have hallC : (cs.count PStatus.canceled = cs.length) ↔ ∀ x ∈ cs, x = PStatus.canceled :=
    ⟨fun h x hx => (List.count_eq_length.mp h x hx).symm,
     fun h => List.count_eq_length.mpr fun b hb => (h b hb).symm⟩
  unfold derive_status specJobStatus
  dsimp only
  refine if_congr (by rw [htot]) rfl ?_
  refine if_congr List.count_pos_iff rfl ?_
  refine if_congr List.count_pos_iff rfl ?_
  refine if_congr List.count_pos_iff rfl ?_
  refine if_congr (by rw [htot]; exact hallS) rfl ?_
  refine if_congr (by rw [htot]; exact hallC) rfl ?_
  exact if_congr
    (and_congr List.count_pos_iff (and_congr List.count_pos_iff Iff.rfl)) rfl rfl

theorem find?_map_update (l : List Job) (jid : Nat) (f : Job → Job)
    (hf : ∀ j, (f j).id = j.id) :
    (l.map (fun jb => if jb.id == jid then f jb else jb)).find? (fun j => j.id == jid)
      = (l.find? (fun j => j.id == jid)).map f := by
  induction l with
  | nil => rfl
  | cons a l ih =>
    simp only [List.map_cons]
    by_cases h : (a.id == jid) = true
    · rw [if_pos h]
      have hfa : ((f a).id == jid) = true := by rw [hf]; exact h
      rw [@List.find?_cons_of_pos _ (fun j => j.id == jid) (f a) _ hfa,
        @List.find?_cons_of_pos _ (fun j => j.id == jid) a _ h]
      rfl
    · rw [if_neg h]
      rw [@List.find?_cons_of_neg _ (fun j => j.id == jid) a _ h,
        @List.find?_cons_of_neg _ (fun j => j.id == jid) a _ h]
      exact ih

theorem job_prompt_counts_eq (s : DBState) (jid : Nat) :
    job_prompt_counts s jid =
      { pending := (childStatuses s jid).count .pending
        running := (childStatuses s jid).count .running
        succeeded := (childStatuses s jid).count .succeeded
        failed := (childStatuses s jid).count .failed
        canceled := (childStatuses s jid).count .canceled } := rfl

/-- C1: for every existing job, `update_job_status` returns and writes onto
the job row exactly the status derived by the §3.4 rule chain
(`specJobStatus`) from the multiset of its child prompt statuses and its
`cancel_requested` flag. -/
theorem update_job_status_some (s : DBState) (now jid : Nat) (j : Job)
    (h : jobOf s jid = some j) :
    update_job_status s now jid =
      ({ s with
          jobs := s.jobs.map (fun jb =>
            if jb.id == jid then
              update_row (derive_status (job_prompt_counts s jid) j.cancel_requested)
                (started_val j (derive_status (job_prompt_counts s jid) j.cancel_requested) now)
                (finished_val (derive_status (job_prompt_counts s jid) j.cancel_requested) now) jb
            else jb) },
       derive_status (job_prompt_counts s jid) j.cancel_requested) := by
  unfold update_job_status
  rw [h]

theorem update_row_id (status : PStatus) (sv fv : Option Nat) (jb : Job) :
    (update_row status sv fv jb).id = jb.id := rfl

theorem jobOf_update_job_status (s : DBState) (now jid : Nat) (j : Job)
    (h : jobOf s jid = some j) :
    jobOf (update_job_status s now jid).1 jid =
      some (update_row (derive_status (job_prompt_counts s jid) j.cancel_requested)
        (started_val j (derive_status (job_prompt_counts s jid) j.cancel_requested) now)
        (finished_val (derive_status (job_prompt_counts s jid) j.cancel_requested) now) j) := by
  rw [update_job_status_some s now jid j h]
  show List.find? _ (List.map _ _) = _
  rw [find?_map_update s.jobs jid
    (update_row (derive_status (job_prompt_counts s jid) j.cancel_requested)
      (started_val j (derive_status (job_prompt_counts s jid) j.cancel_requested) now)
      (finished_val (derive_status (job_prompt_counts s jid) j.cancel_requested) now))
    (fun _ => rfl)]
  unfold jobOf at h
  rw [h]
  rfl

theorem c1_update_job_status_matches_spec (s : DBState) (now jid : Nat) (j : Job)
    (h : jobOf s jid = some j) :
    (update_job_status s now jid).2 = specJobStatus (childStatuses s jid) j.cancel_requested ∧
    ∃ j', jobOf (update_job_status s now jid).1 jid = some j' ∧
      j'.status = specJobStatus (childStatuses s jid) j.cancel_requested := by
  have hspec : derive_status (job_prompt_counts s jid) j.cancel_requested
      = specJobStatus (childStatuses s jid) j.cancel_requested := by
    rw [job_prompt_counts_eq]
    exact derive_status_eq_spec (childStatuses s jid) j.cancel_requested
  constructor
  · rw [update_job_status_some s now jid j h]
    exact hspec
  · exact ⟨_, jobOf_update_job_status s now jid j h, hspec⟩

/-- Concrete single-job state used by the C1 witness. -/
def c1J : Job :=
  { id := 1, status := .pending, cancel_requested := false, priority := 0, created_at := 0,
    started_at := none, finished_at := none, last_error := none, input_dir := "d",
    move_processed := false }

/-- Concrete DB state used by the C1 witness: one job with one succeeded prompt. -/
def c1S : DBState :=
  { jobs := [c1J]
    prompts := [{ id := 1, job_id := 1, input_file := "a.png", status := .succeeded,
                  prompt_id := none, started_at := none, finished_at := none,
                  exit_status := none, error_detail := none, output_paths := "[]",
                  seed_used := none }]
    paused := false }

theorem c1_witness :
    jobOf c1S 1 = some c1J ∧
    ((update_job_status c1S 7 1).2 = specJobStatus (childStatuses c1S 1) c1J.cancel_requested ∧
     ∃ j', jobOf (update_job_status c1S 7 1).1 1 = some j' ∧
       j'.status = specJobStatus (childStatuses c1S 1) c1J.cancel_requested) :=
  ⟨by rfl, c1_update_job_status_matches_spec c1S 7 1 c1J (by rfl)⟩

/-- The WHERE clause of `QueueDB.next_pending_prompt` (src/db.py:157-161):
prompt pending, parent job (via the JOIN on its primary key) in
{pending, running} with `cancel_requested = 0`, and the optional
`j.id = ?` filter. -/
def eligible (s : DBState) (jf : Option Nat) (p : Prompt) : Bool :=
  decide (p.status = .pending) &&
  (match jobOf s p.job_id with
   | none => false
   | some j =>
     (decide (j.status = .pending) || decide (j.status = .running)) &&
     (!j.cancel_requested) &&
     (match jf with | none => true | some jid => j.id == jid))

/-- The ORDER BY key of `next_pending_prompt`
(`j.priority DESC, j.created_at ASC, p.id ASC`, src/db.py:169), as a
lexicographic order with the priority dualized.  The fallback is never
reached for rows passing the JOIN. -/
def rowKey (s : DBState) (p : Prompt) : OrderDual Int ×ₗ (Nat ×ₗ Nat) :=
  match jobOf s p.job_id with
  | some j => toLex (OrderDual.toDual j.priority, toLex (j.created_at, p.id))
  | none => toLex (OrderDual.toDual 0, toLex (0, 0))

/-- Embedding of `QueueDB.next_pending_prompt` (src/db.py:153-174):
`None` when paused, else `SELECT ... ORDER BY ... LIMIT 1` over the
eligible rows, i.e. the first minimum of the order key. -/
def next_pending_prompt (s : DBState) (jf : Option Nat) : Option Prompt :=
  if s.paused then none
  else (s.prompts.filter (fun p => eligible s jf p)).argmin (rowKey s)

/-- The queue's strict precedence order from the spec's words:
`q` is scheduled strictly before `p` when its job's priority is higher,
or equal priority and its job was created earlier, or same job ordering
position and a smaller prompt id. -/
def beforeInQueue (s : DBState) (q p : Prompt) : Prop :=
  ∃ jq jp, jobOf s q.job_id = some jq ∧ jobOf s p.job_id = some jp ∧
    (jp.priority < jq.priority ∨
      (jq.priority = jp.priority ∧
        (jq.created_at < jp.created_at ∨
          (jq.created_at = jp.created_at ∧ q.id < p.id))))

theorem eligible_iff (s : DBState) (jf : Option Nat) (p : Prompt) :
    eligible s jf p = true ↔
      p.status = .pending ∧ ∃ j, jobOf s p.job_id = some j ∧
        (j.status = .pending ∨ j.status = .running) ∧ j.cancel_requested = false ∧
        (∀ jid, jf = some jid → j.id = jid) := by
  unfold eligible
  cases hj : jobOf s p.job_id with
  | none => simp [hj]
  | some j =>
    cases jf with
    | none => simp [hj]
    | some jid => simp [hj, and_assoc]

theorem beforeInQueue_iff_lt (s : DBState) (q p : Prompt) (jq jp : Job)
    (hq : jobOf s q.job_id = some jq) (hp : jobOf s p.job_id = some jp) :
    beforeInQueue s q p ↔ rowKey s q < rowKey s p := by
  unfold beforeInQueue rowKey
  rw [hq, hp]
  rw [Prod.Lex.lt_iff]
  simp only [Prod.Lex.lt_iff, OrderDual.toDual_lt_toDual, OrderDual.toDual_inj, hq, hp,
    Option.some.injEq]
  constructor
  · rintro ⟨jq', jp', rfl, rfl, hh⟩
    exact hh
  · intro hh
    exact ⟨jq, jp, rfl, rfl, hh⟩

/-- C2: `next_pending_prompt` returns at most one row (it is an
`Option`); it returns nothing when the queue is paused; any returned
prompt is pending with a parent job that is not cancel-requested and is
in {pending, running}; and no other eligible pending prompt strictly
precedes it under the order job.priority DESC, job.created_at ASC,
prompt.id ASC. -/
theorem c2_next_pending_prompt (s : DBState) (jf : Option Nat) :
    (s.paused = true → next_pending_prompt s jf = none) ∧
    (∀ p, next_pending_prompt s jf = some p →
      p ∈ s.prompts ∧ p.status = .pending ∧
      (∃ j, jobOf s p.job_id = some j ∧ j.cancel_requested = false ∧
        (j.status = .pending ∨ j.status = .running)) ∧
      (∀ q ∈ s.prompts, eligible s jf q = true → ¬ beforeInQueue s q p)) := by
  constructor
  · intro hp
    unfold next_pending_prompt
    rw [if_pos hp]
  · intro p hp
    unfold next_pending_prompt at hp
    by_cases hpause : s.paused = true
    · rw [if_pos hpause] at hp
      exact absurd hp (by simp)
    · rw [if_neg hpause] at hp
      have hpm : p ∈ (s.prompts.filter (fun p => eligible s jf p)).argmin (rowKey s) := by
        rw [hp]; rfl
      have hfil : p ∈ s.prompts.filter (fun p => eligible s jf p) := List.argmin_mem hpm
      have hmem : p ∈ s.prompts := (List.mem_filter.mp hfil).1
      have helig : eligible s jf p = true := (List.mem_filter.mp hfil).2
      obtain ⟨hpend, j, hj, hjs, hjcr, _⟩ := (eligible_iff s jf p).mp helig
      refine ⟨hmem, hpend, ⟨j, hj, hjcr, hjs⟩, ?_⟩
      intro q hq hqe hbefore
      have hqfil : q ∈ s.prompts.filter (fun p => eligible s jf p) :=
        List.mem_filter.mpr ⟨hq, hqe⟩
      obtain ⟨_, jq, hjq, _, _, _⟩ := (eligible_iff s jf q).mp hqe
      have hlt : rowKey s q < rowKey s p :=
        (beforeInQueue_iff_lt s q p jq j hjq hj).mp hbefore
      exact List.not_lt_of_mem_argmin hqfil hpm hlt

/-- Concrete two-job state used by the C2 witness; the second job has
higher priority, so its prompt is returned. -/
def c2S : DBState :=
  { jobs :=
      [{ id := 1, status := .pending, cancel_requested := false, priority := 0, created_at := 5,
         started_at := none, finished_at := none, last_error := none, input_dir := "d",
         move_processed := false },
       { id := 2, status := .pending, cancel_requested := false, priority := 1, created_at := 9,
         started_at := none, finished_at := none, last_error := none, input_dir := "d",
         move_processed := false }]
    prompts :=
      [{ id := 1, job_id := 1, input_file := "a.png", status := .pending, prompt_id := none,
         started_at := none, finished_at := none, exit_status := none, error_detail := none,
         output_paths := "[]", seed_used := none },
       { id := 2, job_id := 2, input_file := "b.png", status := .pending, prompt_id := none,
         started_at := none, finished_at := none, exit_status := none, error_detail := none,
         output_paths := "[]", seed_used := none }]
    paused := false }

/-- The prompt of the higher-priority job in `c2S`. -/
def c2P : Prompt :=
  { id := 2, job_id := 2, input_file := "b.png", status := .pending, prompt_id := none,
    started_at := none, finished_at := none, exit_status := none, error_detail := none,
    output_paths := "[]", seed_used := none }

theorem c2_witness :
    next_pending_prompt c2S none = some c2P ∧
    (c2P ∈ c2S.prompts ∧ c2P.status = .pending ∧
      (∃ j, jobOf c2S c2P.job_id = some j ∧ j.cancel_requested = false ∧
        (j.status = .pending ∨ j.status = .running)) ∧
      (∀ q ∈ c2S.prompts, eligible c2S none q = true → ¬ beforeInQueue c2S q c2P)) :=
  ⟨by rfl, (c2_next_pending_prompt c2S none).2 c2P (by rfl)⟩

/-- The summary dict attached by `cancel_job` as `cancel_summary`. -/
structure CancelSummary where
  mode : String
  canceled_pending : Nat
  running_prompts : Nat
deriving DecidableEq, Repr

/-- Row effect of `UPDATE prompts SET status='canceled', finished_at=?
WHERE job_id=? AND status='pending'` (src/db.py:324-327). -/
def markCanceled (now : Nat) (p : Prompt) : Prompt :=
  { p with status := .canceled, finished_at := some now }

/-- The WHERE clause of the cancel UPDATE: pending prompts of the job. -/
def cancelMatch (jid : Nat) (p : Prompt) : Bool :=
  p.job_id == jid && decide (p.status = .pending)

/-- The running-count SELECT of `cancel_job` (src/db.py:331-337). -/
def runningMatch (jid : Nat) (p : Prompt) : Bool :=
  p.job_id == jid && decide (p.status = .running)

/-- The transaction body of `cancel_job` (src/db.py:323-329): cancel the
pending prompts of the job and set `cancel_requested=1` on the job. -/
def cancelStep (s : DBState) (now jid : Nat) : DBState :=
  { s with
    prompts := s.prompts.map (fun p => if cancelMatch jid p then markCanceled now p else p)
    jobs := s.jobs.map (fun j => if j.id == jid then { j with cancel_requested := true } else j) }

/-- Embedding of `QueueDB.cancel_job` (src/db.py:317-348): `None` for a
missing job; else cancel pending prompts (the UPDATE's `rowcount` is the
number of matching rows), set `cancel_requested`, count still-running
prompts, recompute the job status, and attach the summary with
`mode == "cancel_after_current"` iff `running_now > 0`. -/
def cancel_job (s : DBState) (now jid : Nat) : Option (DBState × CancelSummary) :=
  match jobOf s jid with
  | none => none
  | some _ =>
    some ((update_job_status (cancelStep s now jid) now jid).1,
      { mode := if 0 < ((cancelStep s now jid).prompts.filter (runningMatch jid)).length
          then "cancel_after_current" else "immediate"
        canceled_pending := (s.prompts.filter (cancelMatch jid)).length
        running_prompts := ((cancelStep s now jid).prompts.filter (runningMatch jid)).length })

theorem forall2_eq_map {α : Type} (g : α → α) (l : List α) :
    List.Forall₂ (fun p p' => p' = g p) l (l.map g) := by
  induction l with
  | nil => exact List.Forall₂.nil
  | cons a l ih => exact List.Forall₂.cons rfl ih

theorem cancel_row_eq (now jid : Nat) (p : Prompt) :
    (if cancelMatch jid p then markCanceled now p else p)
      = if p.job_id = jid ∧ p.status = .pending then markCanceled now p else p := by
  unfold cancelMatch
  by_cases h1 : p.job_id = jid <;> by_cases h2 : p.status = .pending <;> simp [h1, h2]

theorem filter_map_invariant {α : Type} (l : List α) (g : α → α) (q : α → Bool)
    (h1 : ∀ p, q (g p) = q p) (h2 : ∀ p, q p = true → g p = p) :
    (l.map g).filter q = l.filter q := by
  induction l with
  | nil => rfl
  | cons a l ih =>
    simp only [List.map_cons, List.filter_cons, h1]
    cases hq : q a with
    | true => rw [h2 a hq]; simpa using ih
    | false => simpa using ih

theorem map_eq_self_of {α : Type} (l : List α) (f : α → α) (h : ∀ a ∈ l, f a = a) :
    l.map f = l := by
  induction l with
  | nil => rfl
  | cons a l ih =>
    simp only [List.map_cons]
    rw [h a (by simp), ih (fun x hx => h x (by simp [hx]))]

theorem runningMatch_cancel_row (now jid : Nat) (p : Prompt) :
    runningMatch jid (if cancelMatch jid p then markCanceled now p else p) = runningMatch jid p := by
  unfold runningMatch cancelMatch markCanceled
  by_cases h1 : p.job_id = jid <;> by_cases h2 : p.status = .pending <;> simp [h1, h2]

theorem cancelMatch_cancel_row (now jid : Nat) (p : Prompt) :
    cancelMatch jid (if cancelMatch jid p then markCanceled now p else p) = false := by
  cases hcm : cancelMatch jid p with
  | false => simp [hcm]
  | true => simp [hcm, cancelMatch, markCanceled]

theorem cancel_row_id_of_running (now jid : Nat) (p : Prompt)
    (h : runningMatch jid p = true) :
    (if cancelMatch jid p then markCanceled now p else p) = p := by
  have hr : p.status = .running := by
    unfold runningMatch at h
    simp at h
    exact h.2
  have hc : cancelMatch jid p = false := by
    unfold cancelMatch
    simp [hr]
  simp [hc]

theorem filter_map_nil {α : Type} (l : List α) (g : α → α) (q : α → Bool)
    (h : ∀ p, q (g p) = false) :
    (l.map g).filter q = [] := by
  induction l with
  | nil => rfl
  | cons a l ih => simp [List.filter_cons, h, ih]

theorem jobOf_cancelStep (s : DBState) (now jid : Nat) :
    jobOf (cancelStep s now jid) jid
      = (jobOf s jid).map (fun jb => { jb with cancel_requested := true }) := by
  show List.find? _ (s.jobs.map _) = _
  exact find?_map_update s.jobs jid (fun jb => { jb with cancel_requested := true })
    (fun _ => rfl)

theorem cancelStep_prompts (s : DBState) (now jid : Nat) :
    (cancelStep s now jid).prompts
      = s.prompts.map (fun p => if cancelMatch jid p then markCanceled now p else p) := rfl

theorem update_job_status_prompts (s : DBState) (now jid : Nat) :
    (update_job_status s now jid).1.prompts = s.prompts := by
  unfold update_job_status
  cases jobOf s jid <;> rfl

theorem job_prompt_counts_of_prompts (s t : DBState) (hp : s.prompts = t.prompts) (jid : Nat) :
    job_prompt_counts s jid = job_prompt_counts t jid := by
  unfold job_prompt_counts childStatuses
  rw [hp]

theorem filter_length_pos_iff {α : Type} (l : List α) (q : α → Bool) :
    0 < (l.filter q).length ↔ ∃ a ∈ l, q a = true := by
  rw [List.length_pos]
  constructor
  · intro hne
    match hl : l.filter q with
    | [] => exact absurd hl hne
    | b :: bs =>
      have hb : b ∈ l.filter q := by rw [hl]; simp
      exact ⟨b, (List.mem_filter.mp hb).1, (List.mem_filter.mp hb).2⟩
  · rintro ⟨a, ha, hq⟩ hnil
    have : a ∈ l.filter q := List.mem_filter.mpr ⟨ha, hq⟩
    rw [hnil] at this
    simp at this

theorem cancel_job_some_inv (s : DBState) (now jid : Nat) (j : Job)
    (h : jobOf s jid = some j) (s' : DBState) (sum : CancelSummary)
    (heq : cancel_job s now jid = some (s', sum)) :
    s' = (update_job_status (cancelStep s now jid) now jid).1 ∧
    sum = { mode := if 0 < ((cancelStep s now jid).prompts.filter (runningMatch jid)).length
              then "cancel_after_current" else "immediate"
            canceled_pending := (s.prompts.filter (cancelMatch jid)).length
            running_prompts :=
              ((cancelStep s now jid).prompts.filter (runningMatch jid)).length } := by
  unfold cancel_job at heq
  rw [h] at heq
  have hpair := Option.some.inj heq
  exact ⟨(congrArg Prod.fst hpair).symm, (congrArg Prod.snd hpair).symm⟩

theorem cancel_job_isSome (s : DBState) (now jid : Nat) (j : Job)
    (h : jobOf s jid = some j) : ∃ r, cancel_job s now jid = some r := by
  refine ⟨((update_job_status (cancelStep s now jid) now jid).1,
    { mode := if 0 < ((cancelStep s now jid).prompts.filter (runningMatch jid)).length
        then "cancel_after_current" else "immediate"
      canceled_pending := (s.prompts.filter (cancelMatch jid)).length
      running_prompts := ((cancelStep s now jid).prompts.filter (runningMatch jid)).length }), ?_⟩
  unfold cancel_job
  rw [h]

/-- C3: `cancel_job` on an existing job, in one step, marks exactly the
still-pending prompts of the job canceled with `finished_at = now`
(all other prompts unchanged), sets `cancel_requested` on the job, and
recomputes the job status.  The summary's `canceled_pending` is the
number of prompts it canceled and its mode is `cancel_after_current`
iff a running prompt remained, else `immediate`.  A second call returns
`canceled_pending = 0` and leaves the job's status unchanged. -/
theorem c3_cancel_job (s : DBState) (now now2 jid : Nat) (j : Job)
    (h : jobOf s jid = some j) :
    (∃ r, cancel_job s now jid = some r) ∧
    (∀ s' sum, cancel_job s now jid = some (s', sum) →
      List.Forall₂ (fun p p' =>
        p' = if p.job_id = jid ∧ p.status = .pending then markCanceled now p else p)
        s.prompts s'.prompts ∧
      (∃ j', jobOf s' jid = some j' ∧ j'.cancel_requested = true) ∧
      sum.canceled_pending = (s.prompts.filter (cancelMatch jid)).length ∧
      (sum.mode = "cancel_after_current" ↔
        ∃ p ∈ s.prompts, p.job_id = jid ∧ p.status = .running) ∧
      (sum.mode = "cancel_after_current" ∨ sum.mode = "immediate") ∧
      (∃ r2, cancel_job s' now2 jid = some r2) ∧
      (∀ s'' sum2, cancel_job s' now2 jid = some (s'', sum2) →
        sum2.canceled_pending = 0 ∧
        (jobOf s'' jid).map Job.status = (jobOf s' jid).map Job.status)) := by
  have hs1find : jobOf (cancelStep s now jid) jid
      = some { j with cancel_requested := true } := by
    rw [jobOf_cancelStep, h]
    rfl
  constructor
  · exact cancel_job_isSome s now jid j h
  · intro s' sum heq
    obtain ⟨hA, hB⟩ := cancel_job_some_inv s now jid j h s' sum heq
    subst hA
    subst hB
    have hprompts :
        ((update_job_status (cancelStep s now jid) now jid).1).prompts
          = s.prompts.map (fun p => if cancelMatch jid p then markCanceled now p else p) := by
      rw [update_job_status_prompts]
      rfl
    have hs'find := jobOf_update_job_status (cancelStep s now jid) now jid
      { j with cancel_requested := true } hs1find
    have hrun : (cancelStep s now jid).prompts.filter (runningMatch jid)
        = s.prompts.filter (runningMatch jid) := by
      rw [cancelStep_prompts]
      exact filter_map_invariant s.prompts _ (runningMatch jid)
        (runningMatch_cancel_row now jid) (cancel_row_id_of_running now jid)
    refine ⟨?_, ?_, rfl, ?_, ?_, ?_, ?_⟩
    · rw [hprompts]
      exact List.Forall₂.imp (fun a b hb => by rw [hb, cancel_row_eq])
        (forall2_eq_map _ s.prompts)
    · exact ⟨_, hs'find, rfl⟩
    · show (if 0 < ((cancelStep s now jid).prompts.filter (runningMatch jid)).length
          then "cancel_after_current" else "immediate") = "cancel_after_current" ↔ _
      rw [hrun]
      by_cases hpos : 0 < (s.prompts.filter (runningMatch jid)).length
      · rw [if_pos hpos]
        constructor
        · intro _
          obtain ⟨a, ha, hq⟩ := (filter_length_pos_iff s.prompts (runningMatch jid)).mp hpos
          unfold runningMatch at hq
          simp at hq
          exact ⟨a, ha, hq.1, hq.2⟩
        · intro _
          rfl
      · rw [if_neg hpos]
        constructor
        · intro hh
          exact absurd hh (by decide)
        · rintro ⟨a, ha, hj1, hj2⟩
          exact absurd ((filter_length_pos_iff s.prompts (runningMatch jid)).mpr
            ⟨a, ha, by unfold runningMatch; simp [hj1, hj2]⟩) hpos
    · show ((if 0 < ((cancelStep s now jid).prompts.filter (runningMatch jid)).length
          then "cancel_after_current" else "immediate") = "cancel_after_current") ∨ _
      by_cases hpos : 0 < ((cancelStep s now jid).prompts.filter (runningMatch jid)).length
      · left; rw [if_pos hpos]
      · right; rw [if_neg hpos]
    · exact cancel_job_isSome _ now2 jid _ hs'find
    · intro s'' sum2 heq2
      obtain ⟨hA2, hB2⟩ := cancel_job_some_inv _ now2 jid _ hs'find s'' sum2 heq2
      subst hA2
      subst hB2
      have hnil : ((update_job_status (cancelStep s now jid) now jid).1).prompts.filter
          (cancelMatch jid) = [] := by
        rw [hprompts]
        exact filter_map_nil s.prompts _ (cancelMatch jid) (cancelMatch_cancel_row now jid)
      constructor
      · show (((update_job_status (cancelStep s now jid) now jid).1).prompts.filter
            (cancelMatch jid)).length = 0
        rw [hnil]
        rfl
      · have hstep : jobOf (cancelStep (update_job_status (cancelStep s now jid) now jid).1
            now2 jid) jid
            = some (update_row
                (derive_status (job_prompt_counts (cancelStep s now jid) jid)
                  ({ j with cancel_requested := true } : Job).cancel_requested)
                (started_val { j with cancel_requested := true }
                  (derive_status (job_prompt_counts (cancelStep s now jid) jid)
                    ({ j with cancel_requested := true } : Job).cancel_requested) now)
                (finished_val
                  (derive_status (job_prompt_counts (cancelStep s now jid) jid)
                    ({ j with cancel_requested := true } : Job).cancel_requested) now)
                { j with cancel_requested := true }) := by
          rw [jobOf_cancelStep, hs'find]
          rfl
        have hpr2 : (cancelStep (update_job_status (cancelStep s now jid) now jid).1
            now2 jid).prompts = (cancelStep s now jid).prompts := by
          rw [cancelStep_prompts]
          have hid : ∀ p ∈ ((update_job_status (cancelStep s now jid) now jid).1).prompts,
              (if cancelMatch jid p then markCanceled now2 p else p) = p := by
            intro p hp
            rw [hprompts] at hp
            obtain ⟨x, _, rfl⟩ := List.mem_map.mp hp
            have hcm := cancelMatch_cancel_row now jid x
            simp [hcm]
          rw [map_eq_self_of _ _ hid]
          exact hprompts.trans (cancelStep_prompts s now jid).symm
        have hc := job_prompt_counts_of_prompts _ _ hpr2 jid
        rw [jobOf_update_job_status _ now2 jid _ hstep, hs'find]
        show some (derive_status (job_prompt_counts (cancelStep
            (update_job_status (cancelStep s now jid) now jid).1 now2 jid) jid) true)
          = some (derive_status (job_prompt_counts (cancelStep s now jid) jid) true)
        rw [hc]



/-- Job row of the C3 witness state. -/
def c3J : Job :=
  { id := 1, status := .running, cancel_requested := false, priority := 0, created_at := 0,
    started_at := some 1, finished_at := none, last_error := none, input_dir := "d",
    move_processed := false }

/-- C3 witness state: one job with one pending and one running prompt. -/
def c3S : DBState :=
  { jobs := [c3J]
    prompts :=
      [{ id := 1, job_id := 1, input_file := "a.png", status := .running, prompt_id := none,
         started_at := some 1, finished_at := none, exit_status := none, error_detail := none,
         output_paths := "[]", seed_used := none },
       { id := 2, job_id := 1, input_file := "b.png", status := .pending, prompt_id := none,
         started_at := none, finished_at := none, exit_status := none, error_detail := none,
         output_paths := "[]", seed_used := none }]
    paused := false }

theorem c3_witness :
    jobOf c3S 1 = some c3J ∧
    ((∃ r, cancel_job c3S 10 1 = some r) ∧
     (∀ s' sum, cancel_job c3S 10 1 = some (s', sum) →
       List.Forall₂ (fun p p' =>
         p' = if p.job_id = 1 ∧ p.status = .pending then markCanceled 10 p else p)
         c3S.prompts s'.prompts ∧
       (∃ j', jobOf s' 1 = some j' ∧ j'.cancel_requested = true) ∧
       sum.canceled_pending = (c3S.prompts.filter (cancelMatch 1)).length ∧
       (sum.mode = "cancel_after_current" ↔
         ∃ p ∈ c3S.prompts, p.job_id = 1 ∧ p.status = .running) ∧
       (sum.mode = "cancel_after_current" ∨ sum.mode = "immediate") ∧
       (∃ r2, cancel_job s' 11 1 = some r2) ∧
       (∀ s'' sum2, cancel_job s' 11 1 = some (s'', sum2) →
         sum2.canceled_pending = 0 ∧
         (jobOf s'' 1).map Job.status = (jobOf s' 1).map Job.status))) :=
  ⟨by rfl, c3_cancel_job c3S 10 11 1 c3J (by rfl)⟩

/-- Row effect of the retry UPDATE on a failed prompt (src/db.py:352-360):
back to pending with upstream id, timestamps, exit status, error detail
cleared and `output_paths` reset to the empty JSON list. -/
def resetPrompt (p : Prompt) : Prompt :=
  { p with
    status := .pending
    prompt_id := none
    started_at := none
    finished_at := none
    exit_status := none
    error_detail := none
    output_paths := "[]" }

/-- The WHERE clause of the retry UPDATE: failed prompts of the job. -/
def retryMatch (jid : Nat) (p : Prompt) : Bool :=
  p.job_id == jid && decide (p.status = .failed)

/-- The transaction body of `retry_job` (src/db.py:351-364): reset the
failed prompts and clear the job's status, `cancel_requested`,
timestamps and `last_error`. -/
def retryStep (s : DBState) (jid : Nat) : DBState :=
  { s with
    prompts := s.prompts.map (fun p => if retryMatch jid p then resetPrompt p else p)
    jobs := s.jobs.map (fun jb =>
      if jb.id == jid then
        { jb with
          status := .pending
          cancel_requested := false
          started_at := none
          finished_at := none
          last_error := none }
      else jb) }

/-- Embedding of `QueueDB.retry_job` (src/db.py:350-366): the transaction
followed by `update_job_status` (the returned `get_job` detail is the
resulting state itself). -/
def retry_job (s : DBState) (now jid : Nat) : DBState :=
  (update_job_status (retryStep s jid) now jid).1

theorem retry_row_eq (jid : Nat) (p : Prompt) :
    (if retryMatch jid p then resetPrompt p else p)
      = if p.job_id = jid ∧ p.status = .failed then resetPrompt p else p := by
  unfold retryMatch
  by_cases h1 : p.job_id = jid <;> by_cases h2 : p.status = .failed <;> simp [h1, h2]

/-- C4: `retry_job` resets exactly the failed prompts of the job to
pending, clearing upstream prompt id, timestamps, exit status, error
detail and output paths; every other prompt row is unchanged.  On the
job it clears `cancel_requested` and `last_error`, and the cleared
timestamps are re-stamped only by the final recompute: they are `none`
exactly when the recomputed §3.4 status says so (in particular both are
cleared whenever the recomputed status is pending). -/
theorem c4_retry_job (s : DBState) (now jid : Nat) (j : Job) (h : jobOf s jid = some j) :
    List.Forall₂ (fun p p' =>
      p' = if p.job_id = jid ∧ p.status = .failed then resetPrompt p else p)
      s.prompts (retry_job s now jid).prompts ∧
    ∃ j', jobOf (retry_job s now jid) jid = some j' ∧
      j'.cancel_requested = false ∧
      j'.last_error = none ∧
      j'.status = specJobStatus (childStatuses (retryStep s jid) jid) false ∧
      j'.started_at = (if specJobStatus (childStatuses (retryStep s jid) jid) false = .pending
        then none else some now) ∧
      j'.finished_at = (if specJobStatus (childStatuses (retryStep s jid) jid) false = .succeeded ∨
          specJobStatus (childStatuses (retryStep s jid) jid) false = .failed ∨
          specJobStatus (childStatuses (retryStep s jid) jid) false = .canceled
        then some now else none) := by
  have hmid : jobOf (retryStep s jid) jid
      = some { j with
                status := .pending
                cancel_requested := false
                started_at := none
                finished_at := none
                last_error := none } := by
    show List.find? _ (s.jobs.map _) = _
    rw [find?_map_update s.jobs jid
      (fun jb => { jb with
        status := .pending
        cancel_requested := false
        started_at := none
        finished_at := none
        last_error := none }) (fun _ => rfl)]
    unfold jobOf at h
    rw [h]
    rfl
  have hst : derive_status (job_prompt_counts (retryStep s jid) jid) false
      = specJobStatus (childStatuses (retryStep s jid) jid) false := by
    rw [job_prompt_counts_eq]
    exact derive_status_eq_spec _ false
  constructor
  · show List.Forall₂ _ s.prompts ((update_job_status (retryStep s jid) now jid).1).prompts
    rw [update_job_status_prompts]
    show List.Forall₂ _ s.prompts (s.prompts.map _)
    exact List.Forall₂.imp (fun a b hb => by rw [hb, retry_row_eq])
      (forall2_eq_map _ s.prompts)
  · refine ⟨_, jobOf_update_job_status (retryStep s jid) now jid _ hmid, rfl, rfl, ?_, ?_, ?_⟩
    · exact hst
    · show (if derive_status (job_prompt_counts (retryStep s jid) jid) false = .running ∨
            derive_status (job_prompt_counts (retryStep s jid) jid) false = .succeeded ∨
            derive_status (job_prompt_counts (retryStep s jid) jid) false = .failed ∨
            derive_status (job_prompt_counts (retryStep s jid) jid) false = .canceled
          then some now else none) = _
      rw [hst]
      generalize specJobStatus (childStatuses (retryStep s jid) jid) false = q
      cases q <;> simp
    · show (if derive_status (job_prompt_counts (retryStep s jid) jid) false = .succeeded ∨
            derive_status (job_prompt_counts (retryStep s jid) jid) false = .failed ∨
            derive_status (job_prompt_counts (retryStep s jid) jid) false = .canceled
          then some now else none) = _
      rw [hst]

/-- Job row of the C4 witness state. -/
def c4J : Job :=
  { id := 1, status := .failed, cancel_requested := true, priority := 0, created_at := 0,
    started_at := some 1, finished_at := some 2, last_error := some "boom", input_dir := "d",
    move_processed := false }

/-- C4 witness state: one job with one failed and one succeeded prompt. -/
def c4S : DBState :=
  { jobs := [c4J]
    prompts :=
      [{ id := 1, job_id := 1, input_file := "a.png", status := .failed, prompt_id := some "x",
         started_at := some 1, finished_at := some 2, exit_status := some "error",
         error_detail := some "bad", output_paths := "[\"o\"]", seed_used := some 3 },
       { id := 2, job_id := 1, input_file := "b.png", status := .succeeded, prompt_id := some "y",
         started_at := some 1, finished_at := some 2, exit_status := some "success",
         error_detail := none, output_paths := "[\"p\"]", seed_used := some 4 }]
    paused := false }

theorem c4_witness :
    jobOf c4S 1 = some c4J ∧
    (List.Forall₂ (fun p p' =>
      p' = if p.job_id = 1 ∧ p.status = .failed then resetPrompt p else p)
      c4S.prompts (retry_job c4S 9 1).prompts ∧
    ∃ j', jobOf (retry_job c4S 9 1) 1 = some j' ∧
      j'.cancel_requested = false ∧
      j'.last_error = none ∧
      j'.status = specJobStatus (childStatuses (retryStep c4S 1) 1) false ∧
      j'.started_at = (if specJobStatus (childStatuses (retryStep c4S 1) 1) false = .pending
        then none else some 9) ∧
      j'.finished_at = (if specJobStatus (childStatuses (retryStep c4S 1) 1) false = .succeeded ∨
          specJobStatus (childStatuses (retryStep c4S 1) 1) false = .failed ∨
          specJobStatus (childStatuses (retryStep c4S 1) 1) false = .canceled
        then some 9 else none)) :=
  ⟨by rfl, c4_retry_job c4S 9 1 c4J (by rfl)⟩

/-- Python scalar values flowing through the parameter resolver
(src/prompt_builder.py): `None`, `bool`, `int`, `float` (modelled as an
exact rational) and `str`. -/
inductive PyVal where
  | vnone
  | vbool (b : Bool)
  | vint (n : Int)
  | vfloat (q : Rat)
  | vstr (s : String)
deriving DecidableEq, Repr

/-- Python `str()` on the scalars above; numeric rendering is modelled
by `toString`. -/
def pyStr : PyVal → String
  | .vnone => "None"
  | .vbool true => "True"
  | .vbool false => "False"
  | .vint n => toString n
  | .vfloat q => toString q
  | .vstr s => s

/-- Python's `str.strip()` whitespace set (ASCII). -/
def pyIsSpace (c : Char) : Bool :=
  c = ' ' || c = '\t' || c = '\n' || c = '\r' || c = '\x0b' || c = '\x0c'

/-- Python `str.strip()` on a character list. -/
def stripChars (cs : List Char) : List Char :=
  ((cs.dropWhile pyIsSpace).reverse.dropWhile pyIsSpace).reverse

/-- Python `str.strip()`. -/
def pyStrip (s : String) : String :=
  String.mk (stripChars s.toList)

/-- ASCII lowercasing of one character (Python `str.lower()` restricted
to the ASCII range, which covers the accepted bool literals). -/
def lowChar (c : Char) : Char :=
  if 'A' ≤ c ∧ c ≤ 'Z' then Char.ofNat (c.toNat + 32) else c

/-- Python `str.lower()` (ASCII). -/
def pyLower (s : String) : String :=
  String.mk (s.toList.map lowChar)

/-- Value of a non-empty all-digit character list. -/
def digitsVal (cs : List Char) : Option Nat :=
  if cs ≠ [] && cs.all (fun c => c.isDigit) then
    some (cs.foldl (fun acc c => acc * 10 + (c.toNat - '0'.toNat)) 0)
  else none

/-- Python `int(str)`: surrounding whitespace, an optional sign and a
non-empty digit run (digit-grouping underscores are not modelled). -/
def parseInt? (s : String) : Option Int :=
  match stripChars s.toList with
  | '+' :: rest => (digitsVal rest).map (fun n => (n : Int))
  | '-' :: rest => (digitsVal rest).map (fun n => -(n : Int))
  | cs => (digitsVal cs).map (fun n => (n : Int))

/-- Splits a character list at the first `e`/`E` exponent marker. -/
def splitExp : List Char → List Char × Option (List Char)
  | [] => ([], none)
  | c :: rest =>
    if c = 'e' ∨ c = 'E' then ([], some rest)
    else
      let (m, e) := splitExp rest
      (c :: m, e)

/-- Mantissa digits: an integer part, an optional dot and fraction part,
at least one digit overall.  Returns the digits' value and the length of
the fraction. -/
def mantissaVal (cs : List Char) : Option (Nat × Nat) :=
  let ip := cs.takeWhile (fun c => c.isDigit)
  let rest := cs.dropWhile (fun c => c.isDigit)
  match rest with
  | [] =>
    match digitsVal ip with
    | some v => some (v, 0)
    | none => none
  | '.' :: fp =>
    if fp.all (fun c => c.isDigit) && (ip ≠ [] || fp ≠ []) then
      some ((ip ++ fp).foldl (fun acc c => acc * 10 + (c.toNat - '0'.toNat)) 0, fp.length)
    else none
  | _ => none

/-- Python `float(str)`: sign, decimal mantissa and optional exponent
(`inf`/`nan` literals are not modelled). -/
def parseFloat? (s : String) : Option Rat :=
  let t := stripChars s.toList
  let (sgn, body) : Rat × List Char :=
    match t with
    | '+' :: r => (1, r)
    | '-' :: r => (-1, r)
    | r => (1, r)
  let (mant, ex) := splitExp body
  match mantissaVal mant with
  | none => none
  | some (mval, flen) =>
    match ex with
    | none => some (sgn * (mval : Rat) * ((10 : Rat) ^ (-(flen : Int))))
    | some ecs =>
      match parseInt? (String.mk ecs) with
      | none => none
      | some e => some (sgn * (mval : Rat) * ((10 : Rat) ^ (e - (flen : Int))))

/-- Python `int(float)` truncation toward zero. -/
def pyTrunc (q : Rat) : Int :=
  if 0 ≤ q then q.floor else -((-q).floor)

/-- Python `int(x)` over the modelled scalars (`None` raises). -/
def pyInt : PyVal → Option Int
  | .vnone => none
  | .vbool b => some (if b then 1 else 0)
  | .vint n => some n
  | .vfloat q => some (pyTrunc q)
  | .vstr s => parseInt? s

/-- Python `float(x)` over the modelled scalars; note `float(True) = 1.0`. -/
def pyFloat : PyVal → Option Rat
  | .vnone => none
  | .vbool b => some (if b then 1 else 0)
  | .vint n => some (n : Rat)
  | .vfloat q => some q
  | .vstr s => parseFloat? s

/-- The four allowed parameter types (defs.py `ALLOWED_PARAM_TYPES`;
the loader rejects anything else, so the unreachable `unsupported
parameter type` branch needs no constructor). -/
inductive ParamType where
  | text
  | bool
  | int
  | float
deriving DecidableEq, Repr

/-- Embedding of `defs.ParameterDef` (the fields the verified code
reads); a Python `nodes=None` and `nodes=[]` are both falsy, so both
are the empty list. -/
structure ParameterDef where
  name : String
  type : ParamType
  default : PyVal
  min : Option Rat
  max : Option Rat
  nodes : List String
  field : Option String
  fields : Option (List String)
deriving DecidableEq, Repr

/-- Truthy textual booleans accepted by `_coerce_param`. -/
def trueStrings : List String := ["1", "true", "yes", "on"]

/-- Falsy textual booleans accepted by `_coerce_param`. -/
def falseStrings : List String := ["0", "false", "no", "off"]

/-- The `out < param.min` check of `_coerce_param`. -/
def belowMin (mn : Option Rat) (x : Rat) : Bool :=
  match mn with
  | some m => decide (x < m)
  | none => false

/-- The `out > param.max` check of `_coerce_param`. -/
def aboveMax (mx : Option Rat) (x : Rat) : Bool :=
  match mx with
  | some m => decide (m < x)
  | none => false

/-- Embedding of `_coerce_param` (src/prompt_builder.py:26-61): text
never fails (`None` becomes `""`, anything else is stringified); bool
accepts native bools and the case-insensitive textual forms; int
rejects native bools, otherwise applies Python `int()` and the
inclusive min/max bounds; float applies Python `float()` (which accepts
native bools) and the bounds. -/
def coerce_param (pd : ParameterDef) (v : PyVal) : Except String PyVal :=
  match pd.type with
  | .text => .ok (.vstr (match v with | .vnone => "" | _ => pyStr v))
  | .bool =>
    match v with
    | .vbool b => .ok (.vbool b)
    | .vstr s =>
      if pyLower (pyStrip s) ∈ trueStrings then .ok (.vbool true)
      else if pyLower (pyStrip s) ∈ falseStrings then .ok (.vbool false)
      else .error ("parameter " ++ pd.name ++ " must be bool")
    | _ => .error ("parameter " ++ pd.name ++ " must be bool")
  | .int =>
    match v with
    | .vbool _ => .error ("parameter " ++ pd.name ++ " must be int")
    | _ =>
      match pyInt v with
      | none => .error ("parameter " ++ pd.name ++ " must be int")
      | some out =>
        if belowMin pd.min (out : Rat) then .error ("parameter " ++ pd.name ++ " below min")
        else if aboveMax pd.max (out : Rat) then .error ("parameter " ++ pd.name ++ " above max")
        else .ok (.vint out)
  | .float =>
    match pyFloat v with
    | none => .error ("parameter " ++ pd.name ++ " must be float")
    | some out =>
      if belowMin pd.min out then .error ("parameter " ++ pd.name ++ " below min")
      else if aboveMax pd.max out then .error ("parameter " ++ pd.name ++ " above max")
      else .ok (.vfloat out)

/-- The `params[name] if name in params else param.default` lookup of
`resolve_params`. -/
def effRaw (user : List (String × PyVal)) (nm : String) (pd : ParameterDef) : PyVal :=
  match user.find? (fun kv => kv.1 == nm) with
  | some kv => kv.2
  | none => pd.default

/-- The resolution loop of `resolve_params` over the declared parameters
in declaration order, stopping at the first coercion error. -/
def resolve_each (user : List (String × PyVal)) :
    List (String × ParameterDef) → Except String (List (String × PyVal))
  | [] => .ok []
  | pd :: rest =>
    match coerce_param pd.2 (effRaw user pd.1 pd.2) with
    | .error e => .error e
    | .ok v =>
      match resolve_each user rest with
      | .error e => .error e
      | .ok out => .ok ((pd.1, v) :: out)

/-- The `set(params.keys()) - set(workflow_def.parameters.keys())`
computation: user-supplied names not declared by the definition. -/
def unknown_params (wdparams : List (String × ParameterDef))
    (user : List (String × PyVal)) : List String :=
  (user.filter (fun kv => !(wdparams.any (fun pd => pd.1 == kv.1)))).map (fun kv => kv.1)

/-- Embedding of `resolve_params` (src/prompt_builder.py:65-77): fail on
unknown parameter names, else coerce each declared parameter's supplied
or default value. -/
def resolve_params (wdparams : List (String × ParameterDef))
    (user : List (String × PyVal)) : Except String (List (String × PyVal)) :=
  if unknown_params wdparams user ≠ [] then
    .error ("unknown parameters: " ++ String.intercalate ", " (unknown_params wdparams user))
  else resolve_each user wdparams

/-- Error tester for the `Except` embedding of raising code. -/
def isErr {α : Type} : Except String α → Bool
  | .error _ => true
  | .ok _ => false

theorem trueStrings_not_false : ∀ t ∈ trueStrings, t ∉ falseStrings := by
  intro t ht
  fin_cases ht <;> decide

theorem coerce_bool_str (pd : ParameterDef) (s : String) (hty : pd.type = .bool) :
    (coerce_param pd (.vstr s) = .ok (.vbool true) ↔ pyLower (pyStrip s) ∈ trueStrings) ∧
    (coerce_param pd (.vstr s) = .ok (.vbool false) ↔ pyLower (pyStrip s) ∈ falseStrings) := by
  unfold coerce_param
  rw [hty]
  by_cases ht : pyLower (pyStrip s) ∈ trueStrings
  · have hf := trueStrings_not_false _ ht
    constructor
    · simp [ht]
    · simp [ht, hf]
  · by_cases hf : pyLower (pyStrip s) ∈ falseStrings
    · constructor
      · simp [ht, hf]
      · simp [ht, hf]
    · constructor <;> simp [ht, hf]

theorem coerce_int_isErr (pd : ParameterDef) (v : PyVal) (hty : pd.type = .int) :
    isErr (coerce_param pd v) = true ↔
      (∃ b, v = .vbool b) ∨ pyInt v = none ∨
      (∃ n, pyInt v = some n ∧
        (belowMin pd.min (n : Rat) = true ∨ aboveMax pd.max (n : Rat) = true)) := by
  unfold coerce_param
  rw [hty]
  cases v with
  | vbool b =>
    constructor
    · intro _
      exact Or.inl ⟨b, rfl⟩
    · intro _
      rfl
  | vnone => simp [isErr, pyInt]
  | vint n =>
    by_cases hb : belowMin pd.min (n : Rat) = true <;>
      by_cases ha : aboveMax pd.max (n : Rat) = true <;>
      simp [pyInt, hb, ha, isErr]
  | vfloat q =>
    by_cases hb : belowMin pd.min ((pyTrunc q : Int) : Rat) = true <;>
      by_cases ha : aboveMax pd.max ((pyTrunc q : Int) : Rat) = true <;>
      simp [pyInt, hb, ha, isErr]
  | vstr s =>
    cases hpi : parseInt? s with
    | none => simp [pyInt, hpi, isErr]
    | some n =>
      by_cases hb : belowMin pd.min (n : Rat) = true <;>
        by_cases ha : aboveMax pd.max (n : Rat) = true <;>
        simp [pyInt, hpi, hb, ha, isErr]

theorem coerce_float_isErr (pd : ParameterDef) (v : PyVal) (hty : pd.type = .float) :
    isErr (coerce_param pd v) = true ↔
      pyFloat v = none ∨
      (∃ q, pyFloat v = some q ∧
        (belowMin pd.min q = true ∨ aboveMax pd.max q = true)) := by
  unfold coerce_param
  rw [hty]
  cases hpf : pyFloat v with
  | none => simp [hpf, isErr]
  | some q =>
    by_cases hb : belowMin pd.min q = true <;>
      by_cases ha : aboveMax pd.max q = true <;>
      simp [hpf, hb, ha, isErr]

theorem resolve_each_isErr_iff (user : List (String × PyVal)) :
    ∀ l : List (String × ParameterDef),
      isErr (resolve_each user l) = true ↔
        ∃ pd ∈ l, isErr (coerce_param pd.2 (effRaw user pd.1 pd.2)) = true := by
  intro l
  induction l with
  | nil => simp [resolve_each, isErr]
  | cons pd rest ih =>
    unfold resolve_each
    cases hc : coerce_param pd.2 (effRaw user pd.1 pd.2) with
    | error e =>
      constructor
      · intro _
        exact ⟨pd, by simp, by rw [hc]; rfl⟩
      · intro _
        rfl
    | ok v =>
      cases hr : resolve_each user rest with
      | error e =>
        constructor
        · intro _
          obtain ⟨pd', hmem, herr⟩ := ih.mp (by rw [hr]; rfl)
          exact ⟨pd', by simp [hmem], herr⟩
        · intro _
          rfl
      | ok out =>
        constructor
        · intro hfalse
          exact absurd hfalse (by simp [isErr])
        · rintro ⟨pd', hmem, herr⟩
          rcases List.mem_cons.mp hmem with rfl | hmem'
          · rw [hc] at herr
            exact absurd herr (by simp [isErr])
          · have hre := ih.mpr ⟨pd', hmem', herr⟩
            rw [hr] at hre
            exact absurd hre (by simp [isErr])

theorem resolve_each_ok_forall2 (user : List (String × PyVal)) :
    ∀ (l : List (String × ParameterDef)) (out : List (String × PyVal)),
      resolve_each user l = .ok out →
      List.Forall₂ (fun pd nv => nv.1 = pd.1 ∧
        coerce_param pd.2 (effRaw user pd.1 pd.2) = .ok nv.2) l out := by
  intro l
  induction l with
  | nil =>
    intro out h
    unfold resolve_each at h
    cases h
    exact List.Forall₂.nil
  | cons pd rest ih =>
    intro out h
    unfold resolve_each at h
    cases hc : coerce_param pd.2 (effRaw user pd.1 pd.2) with
    | error e =>
      rw [hc] at h
      cases h
    | ok v =>
      rw [hc] at h
      cases hr : resolve_each user rest with
      | error e =>
        rw [hr] at h
        cases h
      | ok out' =>
        rw [hr] at h
        cases h
        exact List.Forall₂.cons ⟨rfl, hc⟩ (ih out' hr)

theorem forall2_map_fst (l : List (String × ParameterDef)) (out : List (String × PyVal))
    (h : List.Forall₂ (fun pd nv => nv.1 = pd.1 ∧
      coerce_param pd.2 (effRaw user pd.1 pd.2) = .ok nv.2) l out) :
    out.map Prod.fst = l.map Prod.fst := by
  induction h with
  | nil => rfl
  | cons hab hrest ih => simp [hab.1, ih]

theorem unknown_params_nil_iff (wdparams : List (String × ParameterDef))
    (user : List (String × PyVal)) :
    unknown_params wdparams user = [] ↔ ∀ kv ∈ user, ∃ pd ∈ wdparams, pd.1 = kv.1 := by
  unfold unknown_params
  rw [List.map_eq_nil_iff, List.filter_eq_nil_iff]
  constructor
  · intro h kv hkv
    have hh := h kv hkv
    simp only [Bool.not_eq_true', Bool.not_eq_false] at hh
    obtain ⟨pd, hpd, heq⟩ := List.any_eq_true.mp hh
    exact ⟨pd, hpd, by simpa using heq⟩
  · intro h kv hkv
    obtain ⟨pd, hpd, heq⟩ := h kv hkv
    simp only [Bool.not_eq_true', Bool.not_eq_false]
    exact List.any_eq_true.mpr ⟨pd, hpd, by simp [heq]⟩

/-- C5: `resolve_params` fails exactly when a supplied parameter name is
undeclared or a supplied/default value fails its type's coercion; on
success the result binds exactly the declared names, in order, each to
the coercion of the supplied value (or of the declaration's default when
omitted).  Additionally: text coercion never fails (`None` becomes `""`,
other values stringify); textual booleans are the trimmed,
case-insensitive sets {1,true,yes,on} and {0,false,no,off}; int fails
exactly on native bools, unparsable values and inclusive min/max
violations; float likewise (with no bool rejection). -/
theorem c5_resolve_params (wdparams : List (String × ParameterDef))
    (user : List (String × PyVal)) :
    (isErr (resolve_params wdparams user) = true ↔
      (∃ kv ∈ user, ∀ pd ∈ wdparams, pd.1 ≠ kv.1) ∨
      (∃ pd ∈ wdparams, isErr (coerce_param pd.2 (effRaw user pd.1 pd.2)) = true)) ∧
    (∀ out, resolve_params wdparams user = .ok out →
      List.Forall₂ (fun pd nv => nv.1 = pd.1 ∧
        coerce_param pd.2 (effRaw user pd.1 pd.2) = .ok nv.2) wdparams out ∧
      out.map Prod.fst = wdparams.map Prod.fst) ∧
    (∀ pd : ParameterDef, pd.type = .text →
      ∀ v, coerce_param pd v = .ok (.vstr (match v with | .vnone => "" | _ => pyStr v))) ∧
    (∀ (pd : ParameterDef) (s : String), pd.type = .bool →
      (coerce_param pd (.vstr s) = .ok (.vbool true) ↔ pyLower (pyStrip s) ∈ trueStrings) ∧
      (coerce_param pd (.vstr s) = .ok (.vbool false) ↔ pyLower (pyStrip s) ∈ falseStrings)) ∧
    (∀ (pd : ParameterDef) (v : PyVal), pd.type = .int →
      (isErr (coerce_param pd v) = true ↔
        (∃ b, v = .vbool b) ∨ pyInt v = none ∨
        (∃ n, pyInt v = some n ∧
          (belowMin pd.min (n : Rat) = true ∨ aboveMax pd.max (n : Rat) = true)))) ∧
    (∀ (pd : ParameterDef) (v : PyVal), pd.type = .float →
      (isErr (coerce_param pd v) = true ↔
        pyFloat v = none ∨
        (∃ q, pyFloat v = some q ∧
          (belowMin pd.min q = true ∨ aboveMax pd.max q = true)))) := by
  refine ⟨?_, ?_, ?_, coerce_bool_str, coerce_int_isErr, coerce_float_isErr⟩
  · unfold resolve_params
    by_cases hu : unknown_params wdparams user ≠ []
    · rw [if_pos hu]
      constructor
      · intro _
        left
        have hnall : ¬ ∀ kv ∈ user, ∃ pd ∈ wdparams, pd.1 = kv.1 :=
          fun hh => hu ((unknown_params_nil_iff wdparams user).mpr hh)
        push_neg at hnall
        obtain ⟨kv, hkv, hnone⟩ := hnall
        exact ⟨kv, hkv, fun pd hpd => hnone pd hpd⟩
      · intro _
        rfl
    · rw [if_neg hu]
      have h0 : unknown_params wdparams user = [] := not_ne_iff.mp hu
      have hall := (unknown_params_nil_iff wdparams user).mp h0
      rw [resolve_each_isErr_iff user wdparams]
      constructor
      · intro hex
        exact Or.inr hex
      · rintro (⟨kv, hkv, hnone⟩ | hex)
        · obtain ⟨pd, hpd, heq⟩ := hall kv hkv
          exact absurd heq (hnone pd hpd)
        · exact hex
  · intro out hok
    unfold resolve_params at hok
    by_cases hu : unknown_params wdparams user ≠ []
    · rw [if_pos hu] at hok
      cases hok
    · rw [if_neg hu] at hok
      have hf2 := resolve_each_ok_forall2 user wdparams out hok
      exact ⟨hf2, forall2_map_fst wdparams out hf2⟩
  · intro pd hty v
    unfold coerce_param
    rw [hty]

/-- Declared parameters of the C5 witness (the spec's scenario 1). -/
def wdC5 : List (String × ParameterDef) :=
  [("a", ⟨"a", .int, .vint 1, some 0, some 5, [], none, none⟩),
   ("b", ⟨"b", .bool, .vbool false, none, none, [], none, none⟩),
   ("c", ⟨"c", .text, .vstr "z", none, none, [], none, none⟩)]

/-- User parameters of the C5 witness. -/
def userC5 : List (String × PyVal) :=
  [("a", .vstr "3"), ("b", .vstr "YES"), ("c", .vnone)]

/-- Expected resolution of the C5 witness. -/
def outC5 : List (String × PyVal) :=
  [("a", .vint 3), ("b", .vbool true), ("c", .vstr "")]

theorem c5_witness :
    resolve_params wdC5 userC5 = .ok outC5 ∧
    (List.Forall₂ (fun pd nv => nv.1 = pd.1 ∧
      coerce_param pd.2 (effRaw userC5 pd.1 pd.2) = .ok nv.2) wdC5 outC5 ∧
     outC5.map Prod.fst = wdC5.map Prod.fst) :=
  ⟨by rfl, (c5_resolve_params wdC5 userC5).2.1 outC5 (by rfl)⟩

/-- C10: for a float parameter `_coerce_param` accepts a native bool and
coerces it numerically (`float(True) = 1.0`, `float(False) = 0.0`,
subject to min/max), while for an int parameter a native bool is
rejected with a validation error; consequently `resolve_params`
succeeds when a bool is supplied for a float parameter. -/
theorem c10_float_accepts_native_bool (pd pdInt : ParameterDef) (b : Bool)
    (hty : pd.type = .float)
    (hmin : belowMin pd.min (if b then 1 else 0) = false)
    (hmax : aboveMax pd.max (if b then 1 else 0) = false)
    (htyI : pdInt.type = .int) :
    coerce_param pd (.vbool b) = .ok (.vfloat (if b then 1 else 0)) ∧
    isErr (coerce_param pdInt (.vbool b)) = true ∧
    ∀ nm, resolve_params [(nm, pd)] [(nm, .vbool b)]
      = .ok [(nm, .vfloat (if b then 1 else 0))] := by
  have h1 : coerce_param pd (.vbool b) = .ok (.vfloat (if b then 1 else 0)) := by
    unfold coerce_param
    rw [hty]
    show (if belowMin pd.min (if b then 1 else 0) = true then _
      else if aboveMax pd.max (if b then 1 else 0) = true then _ else _) = _
    rw [hmin, hmax]
    simp
  refine ⟨h1, ?_, ?_⟩
  · unfold coerce_param
    rw [htyI]
    rfl
  · intro nm
    unfold resolve_params unknown_params
    simp only [List.filter, List.any, List.map]
    have hbeq : (nm == nm) = true := by simp
    simp only [hbeq]
    unfold resolve_each effRaw
    simp only [List.find?, hbeq]
    rw [h1]
    rfl

/-- Float parameter used by the C10 witness. -/
def c10pd : ParameterDef := ⟨"guidance", .float, .vfloat 0, some 0, some 4, [], none, none⟩

/-- Int parameter used by the C10 witness. -/
def c10pdInt : ParameterDef := ⟨"steps", .int, .vint 1, some 0, some 100, [], none, none⟩

theorem c10_witness :
    c10pd.type = .float ∧
    belowMin c10pd.min (if true then 1 else 0) = false ∧
    aboveMax c10pd.max (if true then 1 else 0) = false ∧
    c10pdInt.type = .int ∧
    (coerce_param c10pd (.vbool true) = .ok (.vfloat (if true then 1 else 0)) ∧
     isErr (coerce_param c10pdInt (.vbool true)) = true ∧
     ∀ nm, resolve_params [(nm, c10pd)] [(nm, .vbool true)]
       = .ok [(nm, .vfloat (if true then 1 else 0))]) :=
  ⟨by rfl, by rfl, by rfl, by rfl,
   c10_float_accepts_native_bool c10pd c10pdInt true (by rfl) (by rfl) (by rfl) (by rfl)⟩

/-- JSON-like values of a ComfyUI prompt graph node tree. -/
inductive JVal where
  | str (s : String)
  | num (q : Rat)
  | bool (b : Bool)
  | null
  | arr (xs : List JVal)
  | obj (fields : List (String × JVal))

/-- A prompt graph: the top-level mapping node id → node object,
as an ordered association list (Python dict preserves insertion order). -/
def Graph : Type := List (String × JVal)

/-- Dict read `d.get(k)`. -/
def getField : List (String × JVal) → String → Option JVal
  | [], _ => none
  | (k, v) :: rest, key => if k == key then some v else getField rest key

/-- Dict write `d[k] = v`: updates in place (keeping key position) or
appends a new key. -/
def setField : List (String × JVal) → String → JVal → List (String × JVal)
  | [], key, v => [(key, v)]
  | (k, w) :: rest, key, v =>
    if k == key then (k, v) :: rest else (k, w) :: setField rest key v

/-- Dict membership `k in d`. -/
def hasField (fields : List (String × JVal)) (key : String) : Bool :=
  (getField fields key).isSome

/-- Embedding of `_set_candidate_field` (src/prompt_builder.py:81-97):
write to the preferred field when given (whether or not present), else
to the first present candidate, else to the first candidate.  The
loader guarantees a non-empty candidate list, so the empty case (an
IndexError in the source) is a no-op here. -/
def set_candidate_field (ins : List (String × JVal)) (preferred : Option String)
    (candidates : Option (List String)) (v : JVal) : List (String × JVal) :=
  match preferred with
  | some f => setField ins f v
  | none =>
    match candidates with
    | some cs =>
      match cs.find? (fun f => hasField ins f) with
      | some f => setField ins f v
      | none =>
        match cs with
        | c :: _ => setField ins c v
        | [] => ins
    | none => ins

/-- The `node.setdefault("inputs", {})` + mutate pattern: apply `f` to a
node's `inputs` dict, creating it when absent.  Non-dict nodes are
skipped (`if not isinstance(node, dict): continue`); a non-dict
`inputs` value would raise in the source and is left unchanged here
(unreachable for well-formed templates). -/
def withInputs (n : JVal) (f : List (String × JVal) → List (String × JVal)) : JVal :=
  match n with
  | .obj fields =>
    match getField fields "inputs" with
    | some (.obj ins) => .obj (setField fields "inputs" (.obj (f ins)))
    | some _ => n
    | none => .obj (setField fields "inputs" (.obj (f [])))
  | _ => n

/-- The `prompt.get(nid)` + mutate pattern: transform the node stored
under one id (ids are unique since the graph is a Python dict). -/
def updateNode (g : Graph) (nid : String) (f : JVal → JVal) : Graph :=
  g.map (fun kv => if kv.1 == nid then (kv.1, f kv.2) else kv)

/-- The `for node in prompt.values(): ...` mutate pattern. -/
def mapNodes (g : Graph) (f : JVal → JVal) : Graph :=
  g.map (fun kv => (kv.1, f kv.2))

/-- A `for nid in binding.nodes:` loop of node updates. -/
def updateNodes (g : Graph) (nids : List String) (f : JVal → JVal) : Graph :=
  nids.foldl (fun acc nid => updateNode acc nid f) g

/-- Embedding of `defs.NodeBinding`. -/
structure NodeBinding where
  nodes : List String
  field : Option String
  fields : Option (List String)
deriving DecidableEq, Repr

/-- Embedding of `defs.SwitchState`. -/
structure SwitchState where
  node_id : String
  field : String
  value : JVal

/-- Embedding of `defs.WorkflowDef` (the fields the materializer reads). -/
structure WorkflowDef where
  name : String
  file_bindings : List (String × NodeBinding)
  parameters : List (String × ParameterDef)
  switch_states : List SwitchState
  template_prompt : Graph

/-- `workflow_def.file_bindings.get(name)`. -/
def bindingOf (wd : WorkflowDef) (nm : String) : Option NodeBinding :=
  (wd.file_bindings.find? (fun kv => kv.1 == nm)).map (fun kv => kv.2)

/-- Embedding of `_normalize_context_schedule_values`
(src/prompt_builder.py:101-112) on one node: rewrite the
`uniform_standard` alias on `WanContextWindowsManual` nodes. -/
def normalize_node (n : JVal) : JVal :=
  match n with
  | .obj fields =>
    match getField fields "class_type" with
    | some (.str ct) =>
      if ct = "WanContextWindowsManual" then
        match getField fields "inputs" with
        | some (.obj ins) =>
          match getField ins "context_schedule" with
          | some (.str v) =>
            if v = "uniform_standard" then
              .obj (setField fields "inputs"
                (.obj (setField ins "context_schedule" (.str "standard_uniform"))))
            else n
          | _ => n
        | _ => n
      else n
    | _ => n
  | _ => n

/-- Embedding of `_normalize_context_schedule_values` over the graph. -/
def normalize_context_schedule_values (g : Graph) : Graph :=
  mapNodes g normalize_node

/-- Embedding of `_flip_orientation` (src/prompt_builder.py:115-128) on
one node: swap numeric non-bool width/height (bools are a separate
`JVal` constructor, mirroring the source's explicit bool exclusion). -/
def flip_node (n : JVal) : JVal :=
  match n with
  | .obj fields =>
    match getField fields "inputs" with
    | some (.obj ins) =>
      match getField ins "width", getField ins "height" with
      | some (.num w), some (.num h) =>
        .obj (setField fields "inputs"
          (.obj (setField (setField ins "width" (.num h)) "height" (.num w))))
      | _, _ => n
    | _ => n
  | _ => n

/-- Embedding of `_flip_orientation` over the graph. -/
def flip_orientation_graph (g : Graph) : Graph :=
  mapNodes g flip_node

/-- Embedding of `_apply_resolution` (src/prompt_builder.py:131-145) on
one node: overwrite both dimensions where both are numeric non-bool. -/
def resolution_node (w h : Int) (n : JVal) : JVal :=
  match n with
  | .obj fields =>
    match getField fields "inputs" with
    | some (.obj ins) =>
      match getField ins "width", getField ins "height" with
      | some (.num _), some (.num _) =>
        .obj (setField fields "inputs"
          (.obj (setField (setField ins "width" (.num (w : Rat))) "height" (.num (h : Rat)))))
      | _, _ => n
    | _ => n
  | _ => n

/-- Embedding of `_apply_resolution` over the graph. -/
def apply_resolution (g : Graph) (w h : Int) : Graph :=
  mapNodes g (resolution_node w h)

/-- One binding's node loop shared by the input-binding phase. -/
def apply_one_binding (g : Graph) (b : NodeBinding) (v : JVal) : Graph :=
  updateNodes g b.nodes (fun n => withInputs n (fun ins =>
    set_candidate_field ins b.field b.fields v))

/-- Embedding of `_apply_input_binding` (src/prompt_builder.py:202-212):
write the upstream-relative input path through each of the three
input binding names that is defined. -/
def apply_input_binding (g : Graph) (wd : WorkflowDef) (rel : String) : Graph :=
  ["load_image", "load_video", "input_file"].foldl (fun acc nm =>
    match bindingOf wd nm with
    | none => acc
    | some b => apply_one_binding acc b (.str rel)) g

/-- Embedding of `_apply_switch_states` (src/prompt_builder.py:216-222). -/
def apply_switch_states (g : Graph) (wd : WorkflowDef) : Graph :=
  wd.switch_states.foldl (fun acc sw =>
    updateNode acc sw.node_id (fun n => withInputs n (fun ins =>
      setField ins sw.field sw.value))) g

/-- Conversion of resolved Python parameter values into graph JSON
values when written into node inputs. -/
def pyToJ : PyVal → JVal
  | .vnone => .null
  | .vbool b => .bool b
  | .vint n => .num (n : Rat)
  | .vfloat q => .num q
  | .vstr s => .str s

/-- Python truthiness of the modelled scalars. -/
def pyTruthy : PyVal → Bool
  | .vnone => false
  | .vbool b => b
  | .vint n => decide (n ≠ 0)
  | .vfloat q => decide (q ≠ 0)
  | .vstr s => decide (s ≠ "")

/-- `resolved_params.get(name)`. -/
def lookupVal (resolved : List (String × PyVal)) (nm : String) : Option PyVal :=
  (resolved.find? (fun kv => kv.1 == nm)).map (fun kv => kv.2)

/-- `resolved_params.get(name, default)`. -/
def lookup_or (resolved : List (String × PyVal)) (nm : String) (d : PyVal) : PyVal :=
  (lookupVal resolved nm).getD d

/-- `pre.startswith` over character lists (kernel-reducible). -/
def strStarts (s pre : String) : Bool :=
  List.isPrefixOf pre.toList s.toList

/-- `s.endswith post` over character lists. -/
def strEnds (s post : String) : Bool :=
  List.isSuffixOf post.toList s.toList

/-- The skip rule of `_apply_param_overrides` (src/prompt_builder.py:233-239):
keep template defaults when a blank string is supplied for an
`extra_lora*_name` parameter. -/
def skip_blank_extra_lora_name (pname : String) (v : PyVal) : Bool :=
  match v with
  | .vstr s => decide (stripChars s.toList = []) && strStarts pname "extra_lora"
      && strEnds pname "_name"
  | _ => false

/-- The first loop of `_apply_param_overrides` (src/prompt_builder.py:227-245):
write each node-bound parameter's resolved value (resolved maps are
closed over the declared names, so the `resolved_params[pname]` lookup
is total; a missing key is modelled as `None`). -/
def apply_param_writes (g : Graph) (wd : WorkflowDef)
    (resolved : List (String × PyVal)) : Graph :=
  wd.parameters.foldl (fun acc pv =>
    if pv.2.nodes.isEmpty then acc
    else
      let value := (lookupVal resolved pv.1).getD .vnone
      if skip_blank_extra_lora_name pv.1 value then acc
      else updateNodes acc pv.2.nodes (fun n => withInputs n (fun ins =>
        set_candidate_field ins pv.2.field pv.2.fields (pyToJ value)))) g

/-- The extra-LoRA slot key base (`extra_lora`, `extra_lora2`, ...). -/
def slot_key_base (idx : Nat) : String :=
  if idx = 1 then "extra_lora" else "extra_lora" ++ toString idx

/-- The `str(resolved_params.get(k, "") or "").strip()` name extraction
of `_extra_slot_active`. -/
def slot_name_str (resolved : List (String × PyVal)) (nm : String) : String :=
  let raw := lookup_or resolved nm (.vstr "")
  let s := if pyTruthy raw then pyStr raw else ""
  String.mk (stripChars s.toList)

/-- Embedding of `_extra_slot_active` (src/prompt_builder.py:247-255):
a slot is active iff explicitly enabled and both high/low names are
non-empty after trimming. -/
def extra_slot_active (resolved : List (String × PyVal)) (idx : Nat) : Bool :=
  let kb := slot_key_base idx
  if pyTruthy (lookup_or resolved (kb ++ "_enabled") (.vbool false)) then
    decide (slot_name_str resolved (kb ++ "_high_name") ≠ "") &&
    decide (slot_name_str resolved (kb ++ "_low_name") ≠ "")
  else false

/-- The strength keys forced to zero for an inactive slot. -/
def zero_strength_keys (kb : String) : List String :=
  [kb ++ "_strength_high", kb ++ "_strength_low", kb ++ "_strength"]

/-- The second loop of `_apply_param_overrides`
(src/prompt_builder.py:257-278): force inactive slots' strength-like
parameters to 0.0 on their bound nodes. -/
def zero_inactive_slots (g : Graph) (wd : WorkflowDef)
    (resolved : List (String × PyVal)) : Graph :=
  [1, 2, 3].foldl (fun acc idx =>
    if extra_slot_active resolved idx then acc
    else
      (zero_strength_keys (slot_key_base idx)).foldl (fun acc2 skey =>
        match (wd.parameters.find? (fun kv => kv.1 == skey)).map (fun kv => kv.2) with
        | none => acc2
        | some sdef =>
          if sdef.nodes.isEmpty then acc2
          else updateNodes acc2 sdef.nodes (fun n => withInputs n (fun ins =>
            set_candidate_field ins sdef.field sdef.fields (.num 0)))) acc) g

/-- `_set_model_input` (src/prompt_builder.py:286-292): point a node's
`model` input at `[src_id, 0]`. -/
def set_model_input (g : Graph) (nid src : String) : Graph :=
  updateNode g nid (fun n => withInputs n (fun ins =>
    setField ins "model" (.arr [.str src, .num 0])))

/-- The single-pass WAN rewire of `_apply_param_overrides`
(src/prompt_builder.py:280-314): chain extra-LoRA loaders and point the
sampler model sources at the highest active slot. -/
def wan_rewire (g : Graph) (wd : WorkflowDef)
    (resolved : List (String × PyVal)) : Graph :=
  if wd.name = "wan-context-lite-2stage" then
    let e1 := extra_slot_active resolved 1
    let e2 := extra_slot_active resolved 2
    let g1 := set_model_input (set_model_input g "201" "101") "202" "102"
    let g2 :=
      if e1 then set_model_input (set_model_input g1 "211" "201") "212" "202"
      else set_model_input (set_model_input g1 "211" "101") "212" "102"
    if e2 then set_model_input (set_model_input g2 "104" "211") "103" "212"
    else if e1 then set_model_input (set_model_input g2 "104" "201") "103" "202"
    else set_model_input (set_model_input g2 "104" "101") "103" "102"
  else g

/-- Embedding of `_apply_param_overrides` (src/prompt_builder.py:226-314):
parameter writes, then inactive-slot zeroing, then the WAN rewire. -/
def apply_param_overrides (g : Graph) (wd : WorkflowDef)
    (resolved : List (String × PyVal)) : Graph :=
  wan_rewire (zero_inactive_slots (apply_param_writes g wd resolved) wd resolved) wd resolved

/-- `base.rstrip("/")`. -/
def rstripSlash (s : String) : String :=
  String.mk ((s.toList.reverse.dropWhile (fun c => c = '/')).reverse)

/-- Embedding of `_set_output_prefix` (src/prompt_builder.py:185-198):
without a binding return the stem unchanged; with one, compute
`final = base + "/" + stem` for non-empty stripped base (else the bare
stem), write it to each bound node, and return it. -/
def set_output_prefix_value (g : Graph) (wd : WorkflowDef) (opfx stem : String) :
    Graph × String :=
  match bindingOf wd "output_prefix" with
  | none => (g, stem)
  | some b =>
    let base := rstripSlash opfx
    let final := if base ≠ "" then base ++ "/" ++ stem else stem
    (updateNodes g b.nodes (fun n => withInputs n (fun ins =>
      set_candidate_field ins b.field b.fields (.str final))), final)

/-- The per-node write of `_set_seed` (src/prompt_builder.py:174-180):
a truthy (non-empty) `fields` list writes only to fields already
present; otherwise a set `field` is written unconditionally. -/
def seed_write (b : NodeBinding) (seed : Nat) (ins : List (String × JVal)) :
    List (String × JVal) :=
  match b.fields with
  | some (f0 :: fs) =>
    (f0 :: fs).foldl (fun ins2 f =>
      if hasField ins2 f then setField ins2 f (.num (seed : Rat)) else ins2) ins
  | _ =>
    match b.field with
    | some f => setField ins f (.num (seed : Rat))
    | none => ins

/-- Embedding of `_set_seed` (src/prompt_builder.py:161-181).  The
generated value (wall-clock nanoseconds xor 31 random bits, mod
2^63 - 1) is nondeterministic in the source and is supplied here as the
`seed` argument. -/
def set_seed_value (g : Graph) (wd : WorkflowDef) (randomize : Bool) (seed : Nat) :
    Graph × Option Int :=
  if !randomize then (g, none)
  else
    match bindingOf wd "seed" with
    | none => (g, none)
    | some b =>
      (b.nodes.foldl (fun acc nid =>
        updateNode acc nid (fun n => withInputs n (seed_write b seed))) g,
       some (seed : Int))

/-- The file's basename (`Path(p).name`). -/
def baseName (p : String) : String :=
  String.mk ((p.toList.reverse.takeWhile (fun c => c ≠ '/')).reverse)

/-- `Path(p).stem` (CPython pathlib: drop the last suffix when the last
dot is neither leading nor trailing in the basename). -/
def pathStem (p : String) : String :=
  let name := (p.toList.reverse.takeWhile (fun c => c ≠ '/')).reverse
  let n := name.length
  match name.reverse.findIdx? (fun c => c = '.') with
  | none => String.mk name
  | some r =>
    let i := n - 1 - r
    if 0 < i ∧ i < n - 1 then String.mk (name.take i) else String.mk name

/-- Embedding of `_resolve_for_comfy_input` (src/prompt_builder.py:149-157):
paths under the Comfy input root become root-relative; others stay
verbatim.  Path resolution (symlinks, `..`) is modelled as textual
prefix matching on already-resolved paths. -/
def resolve_for_comfy_input (fp : String) (cdir : Option String) : String :=
  match cdir with
  | none => fp
  | some root =>
    if strStarts fp (root ++ "/") then String.mk (fp.toList.drop (root.length + 1)) else fp

/-- Python `dict(base); merged.update(upd)` key-by-key. -/
def setPair : List (String × PyVal) → String → PyVal → List (String × PyVal)
  | [], k, v => [(k, v)]
  | (k', v') :: rest, k, v =>
    if k' == k then (k, v) :: rest else (k', v') :: setPair rest k v

/-- `merged = dict(resolved); merged.update(override_raw)`. -/
def dictUpdate (base upd : List (String × PyVal)) : List (String × PyVal) :=
  upd.foldl (fun acc kv => setPair acc kv.1 kv.2) base

/-- `per_file_params.get(key)`. -/
def pfLookup (pf : List (String × List (String × PyVal))) (key : String) :
    Option (List (String × PyVal)) :=
  (pf.find? (fun kv => kv.1 == key)).map (fun kv => kv.2)

/-- The per-file override merge of `build_prompts`
(src/prompt_builder.py:345-353): an override keyed by the full path or
the basename is merged over the resolved map and re-resolved. -/
def effective_params (wd : WorkflowDef) (resolved : List (String × PyVal))
    (pf : List (String × List (String × PyVal))) (fp : String) :
    Except String (List (String × PyVal)) :=
  match pfLookup pf fp with
  | some ov => resolve_params wd.parameters (dictUpdate resolved ov)
  | none =>
    match pfLookup pf (baseName fp) with
    | some ov => resolve_params wd.parameters (dictUpdate resolved ov)
    | none => .ok resolved

/-- Embedding of `PromptSpec` (src/prompt_builder.py:17-22); the
`output_prefix` attribute is named `output_prefix_value` here. -/
structure PromptSpec where
  input_file : String
  prompt_json : Graph
  seed_used : Option Int
  output_prefix_value : String

/-- Zero-padded 2-digit attempt number (Python `f"{attempt:02d}"`). -/
def pad2 (n : Nat) : String :=
  if n < 10 then "0" ++ toString n else toString n

/-- The `int(resolved.get("tries", 1))` computation of `build_prompts`
(src/prompt_builder.py:337); an unconvertible value raises. -/
def tries_of (resolved : List (String × PyVal)) : Except String Int :=
  match lookupVal resolved "tries" with
  | none => .ok 1
  | some v =>
    match pyInt v with
    | some n => .ok n
    | none => .error "invalid tries"

/-- `range(1, tries + 1)`. -/
def attemptsList (tries : Int) : List Nat :=
  (List.range tries.toNat).map (fun i => i + 1)

/-- One iteration's graph pipeline of `build_prompts`
(src/prompt_builder.py:355-364): deep-copy the template (pure here),
then input binding, parameter overrides, switch states, context-schedule
normalization, optional resolution, optional orientation flip. -/
def iterGraph (wd : WorkflowDef) (eff : List (String × PyVal))
    (relInput : Option String) (resolution : Option (Int × Int)) (flip : Bool) : Graph :=
  let g1 := match relInput with
    | some rel => apply_input_binding wd.template_prompt wd rel
    | none => wd.template_prompt
  let g2 := apply_param_overrides g1 wd eff
  let g3 := apply_switch_states g2 wd
  let g4 := normalize_context_schedule_values g3
  let g5 := match resolution with
    | some wh => apply_resolution g4 wh.1 wh.2
    | none => g4
  if flip then flip_orientation_graph g5 else g5

/-- One emitted `PromptSpec` of `build_prompts`
(src/prompt_builder.py:366-381): stem with `_tryNN` suffix when
`tries != 1`, output-prefix write, seed write. -/
def iterSpec (wd : WorkflowDef) (eff : List (String × PyVal))
    (relInput : Option String) (fileStr stem_base : String) (tries : Int)
    (attempt : Nat) (opfxBase : String) (randomize : Bool) (seed : Nat)
    (resolution : Option (Int × Int)) (flip : Bool) : PromptSpec :=
  let g := iterGraph wd eff relInput resolution flip
  let stem := if tries = 1 then stem_base else stem_base ++ "_try" ++ pad2 attempt
  let gp := set_output_prefix_value g wd opfxBase stem
  let gs := set_seed_value gp.1 wd randomize seed
  { input_file := fileStr
    prompt_json := gs.1
    seed_used := gs.2
    output_prefix_value := gp.2 }

/-- The per-file effective parameter map: the resolved map itself for the
synthesized no-input iteration, else the per-file override merge. -/
def eff_of_path (wd : WorkflowDef) (resolved : List (String × PyVal))
    (pf : List (String × List (String × PyVal))) :
    Option String → Except String (List (String × PyVal))
  | none => .ok resolved
  | some fpath => effective_params wd resolved pf fpath

/-- The per-file loop of `build_prompts`, over the enumerated path list
(`none` is the synthesized no-input iteration). -/
def buildOver (wd : WorkflowDef) (resolved : List (String × PyVal))
    (pf : List (String × List (String × PyVal))) (cdir : Option String)
    (resolution : Option (Int × Int)) (flip : Bool) (tries : Int)
    (opfxBase : String) (randomize : Bool) (seeds : Nat → Nat → Nat) :
    List (Nat × Option String) → Except String (List PromptSpec)
  | [] => .ok []
  | (idx, fp) :: rest =>
    match eff_of_path wd resolved pf fp with
    | .error e => .error e
    | .ok eff =>
      match buildOver wd resolved pf cdir resolution flip tries opfxBase randomize seeds rest with
      | .error e => .error e
      | .ok restSpecs =>
        .ok (((attemptsList tries).map (fun att =>
          iterSpec wd eff (fp.map (fun fpath => resolve_for_comfy_input fpath cdir))
            (fp.getD "") (match fp with | none => "prompt" | some fpath => pathStem fpath)
            tries att opfxBase randomize (seeds idx att) resolution flip)) ++ restSpecs)

/-- Embedding of `build_prompts` (src/prompt_builder.py:318-383).  Path
`expanduser().resolve()` is modelled as the identity on already-resolved
path strings, and the nondeterministic seed source is the `seeds`
oracle, indexed by file position and attempt. -/
def build_prompts (wd : WorkflowDef) (input_files : List String)
    (params : List (String × PyVal)) (pf : List (String × List (String × PyVal)))
    (cdir : Option String) (resolution : Option (Int × Int)) (flip_arg : Bool)
    (seeds : Nat → Nat → Nat) : Except String (List PromptSpec) :=
  (resolve_params wd.parameters params).bind (fun resolved =>
    (tries_of resolved).bind (fun tries =>
      buildOver wd resolved pf cdir resolution
        (flip_arg || pyTruthy (lookup_or resolved "flip_orientation" (.vbool false)))
        tries
        (pyStr (lookup_or resolved "output_prefix" (.vstr "")))
        (pyTruthy (lookup_or resolved "randomize_seed" (.vbool false)) || decide (tries > 1))
        seeds
        (if input_files.isEmpty then [none] else input_files.map some).enum))

theorem keys_mapNodes (g : Graph) (f : JVal → JVal) :
    (mapNodes g f).map Prod.fst = g.map Prod.fst := by
  unfold mapNodes
  induction g with
  | nil => rfl
  | cons kv rest ih => simp only [List.map_cons, ih]

theorem keys_updateNode (g : Graph) (nid : String) (f : JVal → JVal) :
    (updateNode g nid f).map Prod.fst = g.map Prod.fst := by
  unfold updateNode
  induction g with
  | nil => rfl
  | cons kv rest ih =>
    simp only [List.map_cons, ih]
    by_cases h : (kv.1 == nid) = true <;> simp [h]

theorem keys_foldl {β : Type} (step : Graph → β → Graph)
    (hstep : ∀ g b, (step g b).map Prod.fst = g.map Prod.fst) :
    ∀ (l : List β) (g : Graph), ((l.foldl step g).map Prod.fst) = g.map Prod.fst := by
  intro l
  induction l with
  | nil => intro g; rfl
  | cons b rest ih =>
    intro g
    rw [List.foldl_cons, ih, hstep]

theorem keys_updateNodes (g : Graph) (nids : List String) (f : JVal → JVal) :
    (updateNodes g nids f).map Prod.fst = g.map Prod.fst :=
  keys_foldl _ (fun g nid => keys_updateNode g nid f) nids g

theorem keys_apply_one_binding (g : Graph) (b : NodeBinding) (v : JVal) :
    (apply_one_binding g b v).map Prod.fst = g.map Prod.fst :=
  keys_updateNodes g b.nodes _

theorem keys_apply_input_binding (g : Graph) (wd : WorkflowDef) (rel : String) :
    (apply_input_binding g wd rel).map Prod.fst = g.map Prod.fst := by
  unfold apply_input_binding
  refine keys_foldl _ (fun g nm => ?_) _ g
  cases bindingOf wd nm with
  | none => rfl
  | some b => exact keys_apply_one_binding g b _

theorem keys_apply_switch_states (g : Graph) (wd : WorkflowDef) :
    (apply_switch_states g wd).map Prod.fst = g.map Prod.fst := by
  unfold apply_switch_states
  exact keys_foldl _ (fun g (sw : SwitchState) => keys_updateNode g sw.node_id _) _ g

theorem keys_apply_param_writes (g : Graph) (wd : WorkflowDef)
    (resolved : List (String × PyVal)) :
    (apply_param_writes g wd resolved).map Prod.fst = g.map Prod.fst := by
  unfold apply_param_writes
  refine keys_foldl _ (fun g pv => ?_) _ g
  by_cases h1 : pv.2.nodes.isEmpty
  · simp [h1]
  · by_cases h2 : skip_blank_extra_lora_name pv.1 ((lookupVal resolved pv.1).getD .vnone)
    · simp [h1, h2]
    · simp [h1, h2, keys_updateNodes]

theorem keys_zero_inactive_slots (g : Graph) (wd : WorkflowDef)
    (resolved : List (String × PyVal)) :
    (zero_inactive_slots g wd resolved).map Prod.fst = g.map Prod.fst := by
  unfold zero_inactive_slots
  refine keys_foldl _ (fun g idx => ?_) _ g
  by_cases h1 : extra_slot_active resolved idx
  · simp [h1]
  · simp only [h1]
    refine Eq.trans ?_ (rfl : g.map Prod.fst = g.map Prod.fst)
    refine keys_foldl _ (fun g2 skey => ?_) _ g
    cases (wd.parameters.find? (fun kv => kv.1 == skey)).map (fun kv => kv.2) with
    | none => rfl
    | some sdef =>
      by_cases h2 : sdef.nodes.isEmpty
      · simp [h2]
      · simp [h2, keys_updateNodes]

theorem keys_set_model_input (g : Graph) (nid src : String) :
    (set_model_input g nid src).map Prod.fst = g.map Prod.fst :=
  keys_updateNode g nid _

theorem keys_wan_rewire (g : Graph) (wd : WorkflowDef)
    (resolved : List (String × PyVal)) :
    (wan_rewire g wd resolved).map Prod.fst = g.map Prod.fst := by
  unfold wan_rewire
  by_cases hn : wd.name = "wan-context-lite-2stage"
  · by_cases h1 : extra_slot_active resolved 1 <;>
      by_cases h2 : extra_slot_active resolved 2 <;>
        simp [hn, h1, h2, keys_set_model_input]
  · simp [hn]

theorem keys_apply_param_overrides (g : Graph) (wd : WorkflowDef)
    (resolved : List (String × PyVal)) :
    (apply_param_overrides g wd resolved).map Prod.fst = g.map Prod.fst := by
  unfold apply_param_overrides
  rw [keys_wan_rewire, keys_zero_inactive_slots, keys_apply_param_writes]

theorem keys_set_output_fst (g : Graph) (wd : WorkflowDef) (opfx stem : String) :
    ((set_output_prefix_value g wd opfx stem).1).map Prod.fst = g.map Prod.fst := by
  unfold set_output_prefix_value
  cases bindingOf wd "output_prefix" with
  | none => rfl
  | some b => exact keys_updateNodes g b.nodes _

theorem keys_set_seed_fst (g : Graph) (wd : WorkflowDef) (randomize : Bool) (seed : Nat) :
    ((set_seed_value g wd randomize seed).1).map Prod.fst = g.map Prod.fst := by
  unfold set_seed_value
  by_cases hr : randomize
  · simp only [hr]
    cases bindingOf wd "seed" with
    | none => rfl
    | some b =>
      simp only [Bool.not_true]
      refine keys_foldl _ (fun g nid => keys_updateNode g nid _) _ g
  · simp [hr]

theorem keys_normalize (g : Graph) :
    (normalize_context_schedule_values g).map Prod.fst = g.map Prod.fst :=
  keys_mapNodes g _

theorem keys_flip (g : Graph) :
    (flip_orientation_graph g).map Prod.fst = g.map Prod.fst :=
  keys_mapNodes g _

theorem keys_resolution (g : Graph) (w h : Int) :
    (apply_resolution g w h).map Prod.fst = g.map Prod.fst :=
  keys_mapNodes g _

theorem keys_iterGraph (wd : WorkflowDef) (eff : List (String × PyVal))
    (relInput : Option String) (resolution : Option (Int × Int)) (flip : Bool) :
    (iterGraph wd eff relInput resolution flip).map Prod.fst
      = wd.template_prompt.map Prod.fst := by
  unfold iterGraph
  have h1 : (match relInput with
      | some rel => apply_input_binding wd.template_prompt wd rel
      | none => wd.template_prompt).map Prod.fst = wd.template_prompt.map Prod.fst := by
    cases relInput with
    | none => rfl
    | some rel => exact keys_apply_input_binding _ wd rel
  have h5 : ∀ g : Graph, (match resolution with
      | some wh => apply_resolution g wh.1 wh.2
      | none => g).map Prod.fst = g.map Prod.fst := by
    intro g
    cases resolution with
    | none => rfl
    | some wh => exact keys_resolution g wh.1 wh.2
  by_cases hf : flip = true
  · rw [if_pos hf, keys_flip, h5, keys_normalize, keys_apply_switch_states,
      keys_apply_param_overrides, h1]
  · rw [if_neg hf, h5, keys_normalize, keys_apply_switch_states,
      keys_apply_param_overrides, h1]

theorem keys_iterSpec (wd : WorkflowDef) (eff : List (String × PyVal))
    (relInput : Option String) (fileStr stem_base : String) (tries : Int)
    (attempt : Nat) (opfxBase : String) (randomize : Bool) (seed : Nat)
    (resolution : Option (Int × Int)) (flip : Bool) :
    (iterSpec wd eff relInput fileStr stem_base tries attempt opfxBase randomize seed
      resolution flip).prompt_json.map Prod.fst = wd.template_prompt.map Prod.fst := by
  unfold iterSpec
  dsimp only
  rw [keys_set_seed_fst, keys_set_output_fst, keys_iterGraph]

theorem exbind_ok {α β : Type} (a : α) (f : α → Except String β) :
    (Except.ok a : Except String α).bind f = f a := rfl

theorem buildOver_cons (wd : WorkflowDef) (resolved : List (String × PyVal))
    (pf : List (String × List (String × PyVal))) (cdir : Option String)
    (resolution : Option (Int × Int)) (flip : Bool) (tries : Int)
    (opfxBase : String) (randomize : Bool) (seeds : Nat → Nat → Nat)
    (idx : Nat) (fp : Option String) (rest : List (Nat × Option String)) :
    buildOver wd resolved pf cdir resolution flip tries opfxBase randomize seeds
        ((idx, fp) :: rest)
      = match eff_of_path wd resolved pf fp with
        | .error e => .error e
        | .ok eff =>
          match buildOver wd resolved pf cdir resolution flip tries opfxBase randomize
              seeds rest with
          | .error e => .error e
          | .ok restSpecs =>
            .ok (((attemptsList tries).map (fun att =>
              iterSpec wd eff (fp.map (fun fpath => resolve_for_comfy_input fpath cdir))
                (fp.getD "") (match fp with | none => "prompt" | some fpath => pathStem fpath)
                tries att opfxBase randomize (seeds idx att) resolution flip)) ++ restSpecs)
      := rfl

theorem buildOver_keys (wd : WorkflowDef) (resolved : List (String × PyVal))
    (pf : List (String × List (String × PyVal))) (cdir : Option String)
    (resolution : Option (Int × Int)) (flip : Bool) (tries : Int)
    (opfxBase : String) (randomize : Bool) (seeds : Nat → Nat → Nat) :
    ∀ (lst : List (Nat × Option String)) (out : List PromptSpec),
      buildOver wd resolved pf cdir resolution flip tries opfxBase randomize seeds lst
        = .ok out →
      ∀ spec ∈ out, spec.prompt_json.map Prod.fst = wd.template_prompt.map Prod.fst := by
  intro lst
  induction lst with
  | nil =>
    intro out h
    have hnil : buildOver wd resolved pf cdir resolution flip tries opfxBase randomize
        seeds [] = .ok [] := rfl
    rw [hnil] at h
    cases h
    intro spec hs
    exact absurd hs (List.not_mem_nil spec)
  | cons hd rest ih =>
    intro out h
    obtain ⟨idx, fp⟩ := hd
    rw [buildOver_cons] at h
    cases he : eff_of_path wd resolved pf fp with
    | error e =>
      rw [he] at h
      cases h
    | ok eff =>
      rw [he] at h
      cases hr : buildOver wd resolved pf cdir resolution flip tries opfxBase randomize
          seeds rest with
      | error e =>
        rw [hr] at h
        cases h
      | ok restSpecs =>
        rw [hr] at h
        cases h
        intro spec hs
        rcases List.mem_append.mp hs with hmem | hmem
        · obtain ⟨att, _, rfl⟩ := List.mem_map.mp hmem
          exact keys_iterSpec wd eff _ _ _ tries att opfxBase randomize _ resolution flip
        · exact ih restSpecs hr spec hmem

/-- C6: every materialized prompt graph produced by `build_prompts` has
exactly the template's node ids, in order: no apply-phase adds or
removes a top-level node. -/
theorem c6_build_preserves_node_ids (wd : WorkflowDef) (input_files : List String)
    (params : List (String × PyVal)) (pf : List (String × List (String × PyVal)))
    (cdir : Option String) (resolution : Option (Int × Int)) (flip : Bool)
    (seeds : Nat → Nat → Nat) (out : List PromptSpec)
    (hok : build_prompts wd input_files params pf cdir resolution flip seeds = .ok out) :
    ∀ spec ∈ out, spec.prompt_json.map Prod.fst = wd.template_prompt.map Prod.fst := by
  unfold build_prompts at hok
  cases hres : resolve_params wd.parameters params with
  | error e =>
    rw [hres] at hok
    exact absurd hok (by simp [Except.bind])
  | ok resolved =>
    rw [hres] at hok
    simp only [exbind_ok] at hok
    cases htr : tries_of resolved with
    | error e =>
      rw [htr] at hok
      exact absurd hok (by simp [Except.bind])
    | ok tries =>
      rw [htr] at hok
      simp only [exbind_ok] at hok
      exact buildOver_keys wd resolved pf cdir resolution _ tries _ _ seeds _ out hok

/-- Concrete workflow used by the C6 witness. -/
def c6wd : WorkflowDef :=
  { name := "t"
    file_bindings := [("output_prefix", ⟨["9"], some "filename_prefix", none⟩),
                      ("load_image", ⟨["1"], some "image", none⟩),
                      ("seed", ⟨["3"], some "seed", none⟩)]
    parameters := [("tries", ⟨"tries", .int, .vint 2, some 1, some 10, [], none, none⟩),
                   ("output_prefix",
                    ⟨"output_prefix", .text, .vstr "out/x", none, none, [], none, none⟩)]
    switch_states := [⟨"3", "steps", .num 4⟩]
    template_prompt :=
      [("1", .obj [("class_type", .str "Load"), ("inputs", .obj [("image", .str "z")])]),
       ("3", .obj [("class_type", .str "KSampler"), ("inputs", .obj [("seed", .num 0)])]),
       ("9", .obj [("class_type", .str "Save"),
                   ("inputs", .obj [("filename_prefix", .str "d")])])] }

/-- The concrete build output used by the C6 witness. -/
def c6out : List PromptSpec :=
  match build_prompts c6wd ["in/a.png"] [] [] none none false (fun _ _ => 7) with
  | .ok out => out
  | .error _ => []

theorem c6_witness :
    build_prompts c6wd ["in/a.png"] [] [] none none false (fun _ _ => 7) = .ok c6out ∧
    ∀ spec ∈ c6out, spec.prompt_json.map Prod.fst = c6wd.template_prompt.map Prod.fst :=
  ⟨by rfl,
   c6_build_preserves_node_ids c6wd ["in/a.png"] [] [] none none false (fun _ _ => 7)
     c6out (by rfl)⟩

theorem iterSpec_opfx (wd : WorkflowDef) (eff : List (String × PyVal))
    (relInput : Option String) (fileStr stem_base : String) (tries : Int)
    (attempt : Nat) (opfxBase : String) (randomize : Bool) (seed : Nat)
    (resolution : Option (Int × Int)) (flip : Bool) (b : NodeBinding)
    (hb : bindingOf wd "output_prefix" = some b) :
    (iterSpec wd eff relInput fileStr stem_base tries attempt opfxBase randomize seed
        resolution flip).output_prefix_value =
      (if rstripSlash opfxBase ≠ ""
       then rstripSlash opfxBase ++ "/"
         ++ (if tries = 1 then stem_base else stem_base ++ "_try" ++ pad2 attempt)
       else (if tries = 1 then stem_base else stem_base ++ "_try" ++ pad2 attempt)) := by
  unfold iterSpec set_output_prefix_value
  rw [hb]

/-- Concrete workflow for the C8 counterexample: an `output_prefix`
binding but no `output_prefix` parameter, so the resolved base is the
empty string. -/
def c8wd : WorkflowDef :=
  { name := "t8"
    file_bindings := [("output_prefix", ⟨["9"], some "filename_prefix", none⟩)]
    parameters := []
    switch_states := []
    template_prompt :=
      [("9", .obj [("class_type", .str "Save"),
                   ("inputs", .obj [("filename_prefix", .str "d")])])] }

/-- C8 counterexample: with an `output_prefix` binding and an empty
resolved base, the code emits the bare stem `"a"`, while the claim's
formula `base.rstrip('/') + '/' + stem` yields `"/a"`. -/
theorem c8_counterexample :
    (build_prompts c8wd ["inp/a.png"] [] [] none none false (fun _ _ => 0)).map
        (fun out => out.map (fun sp => sp.output_prefix_value)) = .ok ["a"] ∧
    rstripSlash (pyStr (lookup_or [] "output_prefix" (.vstr ""))) ++ "/"
      ++ pathStem "inp/a.png" = "/a" ∧
    ("a" : String) ≠ "/a" := by
  refine ⟨by rfl, by rfl, by decide⟩

theorem strAppend_assoc (a b c : String) : (a ++ b) ++ c = a ++ (b ++ c) := by
  cases a with
  | mk da =>
    cases b with
    | mk db =>
      cases c with
      | mk dc =>
        show String.mk ((da ++ db) ++ dc) = String.mk (da ++ (db ++ dc))
        rw [List.append_assoc]

/-- C8 (amended): with an `output_prefix` binding, each emitted spec's
output prefix is `base.rstrip('/') + '/' + stem` when the stripped base
is non-empty and the bare `stem` otherwise, where the stem is the input
file's stem suffixed with `_tryNN` exactly when tries != 1; with
`tries = N > 1` and one input, the N specs' values end with `_try01`
through `_tryNN`. -/
theorem c8_output_prefix_amended (wd : WorkflowDef) (f : String)
    (params : List (String × PyVal)) (cdir : Option String)
    (res : Option (Int × Int)) (flip : Bool) (seeds : Nat → Nat → Nat)
    (resolved : List (String × PyVal)) (N : Int) (b : NodeBinding)
    (hb : bindingOf wd "output_prefix" = some b)
    (hres : resolve_params wd.parameters params = .ok resolved)
    (htr : tries_of resolved = .ok N) :
    ∃ out, build_prompts wd [f] params [] cdir res flip seeds = .ok out ∧
      out.map (fun sp => sp.output_prefix_value) =
        (attemptsList N).map (fun att =>
          (if rstripSlash (pyStr (lookup_or resolved "output_prefix" (.vstr ""))) ≠ ""
           then rstripSlash (pyStr (lookup_or resolved "output_prefix" (.vstr ""))) ++ "/"
             ++ (if N = 1 then pathStem f else pathStem f ++ "_try" ++ pad2 att)
           else (if N = 1 then pathStem f else pathStem f ++ "_try" ++ pad2 att))) ∧
      (1 < N → ∀ att ∈ attemptsList N, ∃ pre, ∃ sp ∈ out,
        sp.output_prefix_value = pre ++ ("_try" ++ pad2 att)) := by
  have heff : eff_of_path wd resolved [] (some f) = .ok resolved := rfl
  have hnil : buildOver wd resolved [] cdir res
      (flip || pyTruthy (lookup_or resolved "flip_orientation" (.vbool false))) N
      (pyStr (lookup_or resolved "output_prefix" (.vstr "")))
      (pyTruthy (lookup_or resolved "randomize_seed" (.vbool false)) || decide (N > 1))
      seeds [] = .ok [] := rfl
  have hbuild : build_prompts wd [f] params [] cdir res flip seeds
      = .ok ((attemptsList N).map (fun att =>
          iterSpec wd resolved (some (resolve_for_comfy_input f cdir)) f (pathStem f)
            N att (pyStr (lookup_or resolved "output_prefix" (.vstr "")))
            (pyTruthy (lookup_or resolved "randomize_seed" (.vbool false)) || decide (N > 1))
            (seeds 0 att) res
            (flip || pyTruthy (lookup_or resolved "flip_orientation" (.vbool false)))) ++ []) := by
    unfold build_prompts
    rw [hres]
    simp only [exbind_ok]
    rw [htr]
    simp only [exbind_ok]
    show buildOver wd resolved [] cdir res _ N _ _ seeds ([(0, some f)]) = _
    rw [buildOver_cons, heff, hnil]
    rfl
  refine ⟨_, hbuild, ?_, ?_⟩
  · rw [List.append_nil, List.map_map]
    refine List.map_congr_left (fun att _ => ?_)
    show (iterSpec wd resolved (some (resolve_for_comfy_input f cdir)) f (pathStem f)
        N att _ _ _ res _).output_prefix_value = _
    rw [iterSpec_opfx wd resolved _ f (pathStem f) N att _ _ _ res _ b hb]
  · intro hN att hatt
    have hne : ¬(N = 1) := by omega
    refine ⟨?_, iterSpec wd resolved (some (resolve_for_comfy_input f cdir)) f (pathStem f)
      N att (pyStr (lookup_or resolved "output_prefix" (.vstr "")))
      (pyTruthy (lookup_or resolved "randomize_seed" (.vbool false)) || decide (N > 1))
      (seeds 0 att) res
      (flip || pyTruthy (lookup_or resolved "flip_orientation" (.vbool false))), ?_, ?_⟩
    · exact (if rstripSlash (pyStr (lookup_or resolved "output_prefix" (.vstr ""))) ≠ ""
        then rstripSlash (pyStr (lookup_or resolved "output_prefix" (.vstr ""))) ++ "/"
          ++ pathStem f
        else pathStem f)
    · exact List.mem_append_left _ (List.mem_map.mpr ⟨att, hatt, rfl⟩)
    · rw [iterSpec_opfx wd resolved _ f (pathStem f) N att _ _ _ res _ b hb]
      by_cases hbase : rstripSlash (pyStr (lookup_or resolved "output_prefix" (.vstr ""))) ≠ ""
      · rw [if_pos hbase, if_pos hbase, if_neg hne]
        simp only [strAppend_assoc]
      · rw [if_neg hbase, if_neg hbase, if_neg hne]
        simp only [strAppend_assoc]

/-- Concrete workflow for the C8 witness (tries defaults to 3, base
`out/x`). -/
def c8wdW : WorkflowDef :=
  { name := "t8w"
    file_bindings := [("output_prefix", ⟨["9"], some "filename_prefix", none⟩)]
    parameters := [("tries", ⟨"tries", .int, .vint 3, some 1, some 10, [], none, none⟩),
                   ("output_prefix",
                    ⟨"output_prefix", .text, .vstr "out/x", none, none, [], none, none⟩)]
    switch_states := []
    template_prompt :=
      [("9", .obj [("class_type", .str "Save"),
                   ("inputs", .obj [("filename_prefix", .str "d")])])] }

/-- The resolved map of the C8 witness. -/
def c8resolvedW : List (String × PyVal) :=
  [("tries", .vint 3), ("output_prefix", .vstr "out/x")]

theorem c8_witness :
    bindingOf c8wdW "output_prefix" = some ⟨["9"], some "filename_prefix", none⟩ ∧
    resolve_params c8wdW.parameters [] = .ok c8resolvedW ∧
    tries_of c8resolvedW = .ok 3 ∧
    (∃ out, build_prompts c8wdW ["in/a.png"] [] [] none none false (fun _ _ => 0)
        = .ok out ∧
      out.map (fun sp => sp.output_prefix_value) =
        (attemptsList 3).map (fun att =>
          (if rstripSlash (pyStr (lookup_or c8resolvedW "output_prefix" (.vstr ""))) ≠ ""
           then rstripSlash (pyStr (lookup_or c8resolvedW "output_prefix" (.vstr ""))) ++ "/"
             ++ (if (3 : Int) = 1 then pathStem "in/a.png"
                 else pathStem "in/a.png" ++ "_try" ++ pad2 att)
           else (if (3 : Int) = 1 then pathStem "in/a.png"
                 else pathStem "in/a.png" ++ "_try" ++ pad2 att))) ∧
      ((1 : Int) < 3 → ∀ att ∈ attemptsList 3, ∃ pre, ∃ sp ∈ out,
        sp.output_prefix_value = pre ++ ("_try" ++ pad2 att))) :=
  ⟨by rfl, by rfl, by rfl,
   c8_output_prefix_amended c8wdW "in/a.png" [] none none false (fun _ _ => 0)
     c8resolvedW 3 ⟨["9"], some "filename_prefix", none⟩ (by rfl) (by rfl) (by rfl)⟩

/-- `Path(p).suffix` (CPython pathlib) of the basename. -/
def nameSuffix (p : String) : String :=
  let name := (p.toList.reverse.takeWhile (fun c => c ≠ '/')).reverse
  let n := name.length
  match name.reverse.findIdx? (fun c => c = '.') with
  | none => ""
  | some r =>
    let i := n - 1 - r
    if 0 < i ∧ i < n - 1 then String.mk (name.drop i) else ""

/-- Embedding of `QueueDB.has_active_prompts_for_input` (src/db.py:444-459):
a prompt in {pending, running} for the input file whose parent job is in
{pending, running}, optionally excluding one job id. -/
def has_active_prompts_for_input (s : DBState) (file : String) (excl : Option Nat) : Bool :=
  s.prompts.any (fun p =>
    p.input_file == file &&
    (decide (p.status = .pending) || decide (p.status = .running)) &&
    (s.jobs.any (fun j => j.id == p.job_id &&
      (decide (j.status = .pending) || decide (j.status = .running)))) &&
    (match excl with | none => true | some jid => !(p.job_id == jid)))

/-- One prompt's step of the move loop in `Worker._move_processed`
(src/worker.py:85-100): skip inputs already seen or no longer existing;
otherwise move to `_processed/` (timestamped name on collision).  State
is (filesystem, seen set); `t` models `int(time.time())`. -/
def move_step (processedDir : String) (t : Nat) (st : List String × List String)
    (p : Prompt) : List String × List String :=
  if st.2.contains p.input_file then st
  else
    let seen := p.input_file :: st.2
    if !(st.1.contains p.input_file) then (st.1, seen)
    else
      let dst := processedDir ++ "/" ++ baseName p.input_file
      let dst2 := if st.1.contains dst
        then processedDir ++ "/" ++ pathStem p.input_file ++ "_" ++ toString t
          ++ nameSuffix p.input_file
        else dst
      ((st.1.erase p.input_file) ++ [dst2], seen)

/-- Embedding of `Worker._move_processed` (src/worker.py:71-100) over a
filesystem modelled as the list of existing file paths: a no-op unless
the job exists, has `move_processed` set and ended `succeeded`; then
each distinct existing input file of the job's prompts is moved into
`{input_dir}/_processed/`.  Note: the source performs no
`has_active_prompts_for_input` check. -/
def move_processed (s : DBState) (fs : List String) (t : Nat) (jid : Nat) : List String :=
  match jobOf s jid with
  | none => fs
  | some job =>
    if !job.move_processed then fs
    else if !(decide (job.status = .succeeded)) then fs
    else
      ((s.prompts.filter (fun p => p.job_id == jid)).foldl
        (move_step (job.input_dir ++ "/_processed") t) (fs, [])).1

/-- C7 scenario state, mirroring the repo's own
`test_worker_move_processed.py`: job 1 succeeded with `move_processed`
set, job 2 still pending, both referencing `in/a.png`. -/
def c7S : DBState :=
  { jobs :=
      [{ id := 1, status := .succeeded, cancel_requested := false, priority := 0,
         created_at := 0, started_at := some 1, finished_at := some 2, last_error := none,
         input_dir := "in", move_processed := true },
       { id := 2, status := .pending, cancel_requested := false, priority := 0,
         created_at := 1, started_at := none, finished_at := none, last_error := none,
         input_dir := "in", move_processed := true }]
    prompts :=
      [{ id := 1, job_id := 1, input_file := "in/a.png", status := .succeeded,
         prompt_id := none, started_at := some 1, finished_at := some 2,
         exit_status := some "success", error_detail := none, output_paths := "[]",
         seed_used := none },
       { id := 2, job_id := 2, input_file := "in/a.png", status := .pending,
         prompt_id := none, started_at := none, finished_at := none, exit_status := none,
         error_detail := none, output_paths := "[]", seed_used := none }]
    paused := false }

/-- C7: evaluation of the code at the repo test's scenario.  Another
job's active (pending) prompt still references `in/a.png` — the store's
`has_active_prompts_for_input` reports it — yet `_move_processed`
moves the file anyway, because the worker never consults that check.
The repo's own test asserts the file must not be moved, so the code
contradicts its test suite. -/
theorem c7_move_processed_ignores_active_refs :
    has_active_prompts_for_input c7S "in/a.png" (some 1) = true ∧
    move_processed c7S ["in/a.png"] 99 1 = ["in/_processed/a.png"] ∧
    "in/a.png" ∉ move_processed c7S ["in/a.png"] 99 1 := by
  refine ⟨by rfl, by rfl, by decide⟩

/-- Row of the `prompt_presets` table (src/db.py:72-77): the schema has
exactly name, positive_prompt, negative_prompt and updated_at — no
`mode` column.  `updated_at` timestamps are modelled as naturals. -/
structure PresetRow where
  name : String
  positive_prompt : String
  negative_prompt : String
  updated_at : Nat
deriving DecidableEq, Repr

/-- Embedding of `QueueDB.save_prompt_preset` (src/db.py:473-495): trim
the name (empty raises), then upsert by name.  The source signature
takes no `mode` argument and persists none. -/
def save_prompt_preset (rows : List PresetRow) (now : Nat)
    (name positive negative : String) : Except String (List PresetRow × PresetRow) :=
  let clean := pyStrip name
  if clean = "" then .error "preset name is required"
  else
    let rows' :=
      if rows.any (fun r => r.name == clean) then
        rows.map (fun r =>
          if r.name == clean then
            { r with
              positive_prompt := positive
              negative_prompt := negative
              updated_at := now }
          else r)
      else rows ++ [⟨clean, positive, negative, now⟩]
    .ok (rows', ⟨clean, positive, negative, now⟩)

/-- The ORDER BY of `list_prompt_presets`: `updated_at DESC, name ASC`. -/
def presetBefore (a b : PresetRow) : Bool :=
  b.updated_at < a.updated_at || (a.updated_at == b.updated_at && decide (a.name < b.name))

/-- Insertion into a sorted list under a Boolean order. -/
def insertSorted {α : Type} (le : α → α → Bool) (x : α) : List α → List α
  | [] => [x]
  | y :: ys => if le x y then x :: y :: ys else y :: insertSorted le x ys

/-- Insertion sort under a Boolean order. -/
def sortRows (rows : List PresetRow) : List PresetRow :=
  rows.foldr (insertSorted presetBefore) []

/-- Embedding of `QueueDB.list_prompt_presets` (src/db.py:461-471):
`ORDER BY updated_at DESC, name ASC LIMIT max(1, limit)`.  The source
signature takes no `mode` argument and no filter runs. -/
def list_prompt_presets (rows : List PresetRow) (limit : Int) : List PresetRow :=
  (sortRows rows).take (max 1 limit).toNat

/-- C9: evaluation of the code at the repo test's input
(`test_db_prompt_preset_modes.py` saves presets "walk" and "interp" and
expects a by-mode filter to return only one of them).  The embedded
schema and operations carry no mode at all: listing after the two saves
returns both presets, never a mode-filtered subset. -/
theorem c9_prompt_presets_have_no_mode :
    save_prompt_preset [] 1 "walk" "a" "b"
      = .ok ([⟨"walk", "a", "b", 1⟩], ⟨"walk", "a", "b", 1⟩) ∧
    save_prompt_preset [⟨"walk", "a", "b", 1⟩] 2 "interp" "c" "d"
      = .ok ([⟨"walk", "a", "b", 1⟩, ⟨"interp", "c", "d", 2⟩], ⟨"interp", "c", "d", 2⟩) ∧
    (list_prompt_presets [⟨"walk", "a", "b", 1⟩, ⟨"interp", "c", "d", 2⟩] 50).map
        (fun r => r.name) = ["interp", "walk"] ∧
    (list_prompt_presets [⟨"walk", "a", "b", 1⟩, ⟨"interp", "c", "d", 2⟩] 50).map
        (fun r => r.name) ≠ ["walk"] := by
  refine ⟨by rfl, by rfl, by rfl, by decide⟩
